import Mathlib

/-!
Shallow embedding of the cryptographic core of the alfa-brige-360
repository (crates `alfa_keyvault` and `alfa_photos_vault`), together with
theorems settling the specification claims about it.

Modelling conventions:
* Machine bytes and words are `Nat` values reduced by `% 256` / `% 2^32`
  at every operation that can overflow, mirroring `u8` / `u32` / `u64`.
* Rust `Vec<u8>` / `[u8; N]` / `&[u8]` become `List Nat`; Rust `String`
  data that is only ever consumed via `.as_bytes()` is carried directly as
  its UTF-8 byte list.
* Random nonces (`OsRng` / `thread_rng`) become explicit parameters.
* The SHA-256 / HMAC / HKDF / AES-256-GCM / (X)ChaCha20-Poly1305
  primitives the crates call (`sha2`, `hmac`, `hkdf`, `aes-gcm`,
  `chacha20poly1305` crates) are implemented here in full, following the
  FIPS / RFC algorithms those crates implement.
-/

set_option maxRecDepth 100000
set_option maxHeartbeats 2000000

namespace Alfa

/-- Byte strings: lists of `Nat`, each entry meant to be `< 256`. -/
abbrev Bytes := List Nat

/-- UTF-8 bytes of a string (all strings in this development are ASCII). -/
def strBytes (s : String) : Bytes := s.data.map Char.toNat

/-- Every byte of the list is a valid `u8` value. -/
def allLt256 (bs : Bytes) : Prop := ∀ b ∈ bs, b < 256

/-- Addition modulo 2^32. -/
def add32 (a b : Nat) : Nat := (a + b) % 4294967296

/-- Right rotation within 32 bits. -/
def rotr32 (x n : Nat) : Nat := ((x >>> n) ||| (x <<< (32 - n))) % 4294967296

/-- Left rotation within 32 bits (used by ChaCha20). -/
def rotl32 (x n : Nat) : Nat := ((x <<< n) ||| (x >>> (32 - n))) % 4294967296

/-- Little-endian encoding of `n` into `k` bytes (`u32::to_le_bytes` etc.). -/
def natToLE (k n : Nat) : Bytes :=
  match k with
  | 0 => []
  | j + 1 => n % 256 :: natToLE j (n / 256)

/-- Big-endian encoding of `n` into `k` bytes. -/
def natToBE (k n : Nat) : Bytes :=
  match k with
  | 0 => []
  | j + 1 => natToBE j (n / 256) ++ [n % 256]

/-- Big-endian value of a byte string. -/
def beToNat (bs : Bytes) : Nat := bs.foldl (fun acc b => acc * 256 + b % 256) 0

/-- Little-endian value of a byte string. -/
def leToNat (bs : Bytes) : Nat := bs.foldr (fun b acc => acc * 256 + b % 256) 0

/-- Byte-wise xor of two strings (truncates to the shorter one). -/
def xorBytes (a b : Bytes) : Bytes := List.zipWith Nat.xor a b

/-! ## SHA-256 (FIPS 180-4), as implemented by the `sha2` crate -/

/-- SHA-256 working state: eight 32-bit words. -/
structure Sha2St where
  a : Nat
  b : Nat
  c : Nat
  d : Nat
  e : Nat
  f : Nat
  g : Nat
  h : Nat

def shaSigma0 (x : Nat) : Nat := Nat.xor (Nat.xor (rotr32 x 7) (rotr32 x 18)) (x >>> 3)
def shaSigma1 (x : Nat) : Nat := Nat.xor (Nat.xor (rotr32 x 17) (rotr32 x 19)) (x >>> 10)
def shaBig0 (x : Nat) : Nat := Nat.xor (Nat.xor (rotr32 x 2) (rotr32 x 13)) (rotr32 x 22)
def shaBig1 (x : Nat) : Nat := Nat.xor (Nat.xor (rotr32 x 6) (rotr32 x 11)) (rotr32 x 25)

/-- Bitwise choice; `¬x` is complement within 32 bits. -/
def shaCh (x y z : Nat) : Nat :=
  Nat.xor (Nat.land x y) (Nat.land (4294967295 - x % 4294967296) z)

def shaMaj (x y z : Nat) : Nat :=
  Nat.xor (Nat.xor (Nat.land x y) (Nat.land x z)) (Nat.land y z)

def shaK : List Nat :=
  [1116352408, 1899447441, 3049323471, 3921009573, 961987163, 1508970993,
   2453635748, 2870763221, 3624381080, 310598401, 607225278, 1426881987,
   1925078388, 2162078206, 2614888103, 3248222580, 3835390401, 4022224774,
   264347078, 604807628, 770255983, 1249150122, 1555081692, 1996064986,
   2554220882, 2821834349, 2952996808, 3210313671, 3336571891, 3584528711,
   113926993, 338241895, 666307205, 773529912, 1294757372, 1396182291,
   1695183700, 1986661051, 2177026350, 2456956037, 2730485921, 2820302411,
   3259730800, 3345764771, 3516065817, 3600352804, 4094571909, 275423344,
   430227734, 506948616, 659060556, 883997877, 958139571, 1322822218,
   1537002063, 1747873779, 1955562222, 2024104815, 2227730452, 2361852424,
   2428436474, 2756734187, 3204031479, 3329325298]

def shaInit : Sha2St :=
  ⟨1779033703, 3144134277, 1013904242, 2773480762, 1359893119, 2600822924, 528734635, 1541459225⟩

/-- Extend the 16 block words to the 64-entry message schedule. -/
def shaSchedule (ws : List Nat) (i : Nat) : List Nat :=
  match i with
  | 0 => ws
  | n + 1 =>
    let prev := shaSchedule ws n
    let j := 16 + n
    let w := add32 (add32 (shaSigma1 (prev.getD (j - 2) 0)) (prev.getD (j - 7) 0))
                   (add32 (shaSigma0 (prev.getD (j - 15) 0)) (prev.getD (j - 16) 0))
    prev ++ [w]

def shaRound (st : Sha2St) (kw : Nat × Nat) : Sha2St :=
  let t1 := add32 st.h (add32 (shaBig1 st.e) (add32 (shaCh st.e st.f st.g) (add32 kw.1 kw.2)))
  let t2 := add32 (shaBig0 st.a) (shaMaj st.a st.b st.c)
  ⟨add32 t1 t2, st.a, st.b, st.c, add32 st.d t1, st.e, st.f, st.g⟩

/-- One compression of a 16-word block into the chaining state. -/
def shaCompress (h0 : Sha2St) (block : List Nat) : Sha2St :=
  let ws := shaSchedule block 48
  let st := (shaK.zip ws).foldl shaRound h0
  ⟨add32 h0.a st.a, add32 h0.b st.b, add32 h0.c st.c, add32 h0.d st.d,
   add32 h0.e st.e, add32 h0.f st.f, add32 h0.g st.g, add32 h0.h st.h⟩

def bytesToWordsBE : Bytes → List Nat
  | b0 :: b1 :: b2 :: b3 :: rest =>
      ((b0 % 256) * 16777216 + (b1 % 256) * 65536 + (b2 % 256) * 256 + b3 % 256) :: bytesToWordsBE rest
  | _ => []

def word32ToBE (w : Nat) : Bytes := [(w >>> 24) % 256, (w >>> 16) % 256, (w >>> 8) % 256, w % 256]

def word32ToLE (w : Nat) : Bytes := [w % 256, (w >>> 8) % 256, (w >>> 16) % 256, (w >>> 24) % 256]

/-- Merkle–Damgård padding: 0x80, zeros, 64-bit big-endian bit length. -/
def shaPad (msg : Bytes) : Bytes :=
  msg ++ [128] ++ List.replicate ((64 - (msg.length + 9) % 64) % 64) 0
      ++ natToBE 8 (msg.length * 8)

def chunks64 (l : Bytes) (fuel : Nat) : List Bytes :=
  match fuel with
  | 0 => []
  | k + 1 => if l.length = 0 then [] else l.take 64 :: chunks64 (l.drop 64) k

def shaDigestBytes (st : Sha2St) : Bytes :=
  word32ToBE st.a ++ word32ToBE st.b ++ word32ToBE st.c ++ word32ToBE st.d ++
  word32ToBE st.e ++ word32ToBE st.f ++ word32ToBE st.g ++ word32ToBE st.h

def shaFoldBlocks (msg : Bytes) : Sha2St :=
  let padded := shaPad msg
  (chunks64 padded (padded.length / 64 + 1)).foldl
    (fun h b => shaCompress h (bytesToWordsBE b)) shaInit

/-- SHA-256 digest (32 bytes) of a byte string. -/
def sha256 (msg : Bytes) : Bytes := shaDigestBytes (shaFoldBlocks msg)

/-! ## HMAC-SHA256 (`hmac` crate) -/

/-- Normalize the HMAC key: hash if longer than the 64-byte block, pad with zeros. -/
def hmacKeyBlock (key : Bytes) : Bytes :=
  let k0 := if key.length > 64 then sha256 key else key
  k0 ++ List.replicate (64 - k0.length) 0

/-- HMAC-SHA256 (RFC 2104). -/
def hmacSha256 (key msg : Bytes) : Bytes :=
  let kb := hmacKeyBlock key
  let ipadKey := kb.map (fun b => Nat.xor b 0x36)
  let opadKey := kb.map (fun b => Nat.xor b 0x5c)
  sha256 (opadKey ++ sha256 (ipadKey ++ msg))

/-! ## HKDF-SHA256 (`hkdf` crate), 32-byte output -/

/-- Rust `Hkdf::<Sha256>::new(salt, ikm)`: extract step; `none` salt means 32 zero bytes. -/
def hkdfExtract (salt : Option Bytes) (ikm : Bytes) : Bytes :=
  hmacSha256 (salt.getD (List.replicate 32 0)) ikm

/-- Rust `hk.expand(info, okm)` with a 32-byte output: first expansion block only. -/
def hkdfExpand32 (prk info : Bytes) : Bytes :=
  hmacSha256 prk (info ++ [1])

/-- Full HKDF-SHA256 with a 32-byte output. -/
def hkdfSha256 (salt : Option Bytes) (ikm info : Bytes) : Bytes :=
  hkdfExpand32 (hkdfExtract salt ikm) info

/-! ## Lowercase hex (the `hex` crate) -/

def hexDigitChar (n : Nat) : Nat := if n < 10 then 48 + n else 87 + n

/-- Rust `hex::encode`: lowercase hex, returned as its ASCII bytes. -/
def hexEncode (bs : Bytes) : Bytes :=
  bs.foldr (fun b acc => hexDigitChar (b / 16 % 16) :: hexDigitChar (b % 16) :: acc) []

/-- Value of one ASCII hex digit (`0-9`, `a-f`, `A-F`). -/
def hexCharVal (c : Nat) : Option Nat :=
  if 48 ≤ c ∧ c ≤ 57 then some (c - 48)
  else if 97 ≤ c ∧ c ≤ 102 then some (c - 87)
  else if 65 ≤ c ∧ c ≤ 70 then some (c - 55)
  else none

/-- Rust `hex::decode`: `none` on odd length or invalid digits. -/
def hexDecode : Bytes → Option Bytes
  | [] => some []
  | [_] => none
  | c1 :: c2 :: rest =>
    match hexCharVal c1, hexCharVal c2, hexDecode rest with
    | some h, some l, some tl => some ((h * 16 + l) :: tl)
    | _, _, _ => none

/-- Rust `hex::decode(..).unwrap_or_default()`. -/
def hexDecodeD (bs : Bytes) : Bytes := (hexDecode bs).getD []

/-! ## AES-256 (FIPS 197), as used by the `aes-gcm` crate -/

def aesSbox : List Nat :=
  [0x63, 0x7c, 0x77, 0x7b, 0xf2, 0x6b, 0x6f, 0xc5, 0x30, 0x01, 0x67, 0x2b, 0xfe, 0xd7, 0xab, 0x76,
   0xca, 0x82, 0xc9, 0x7d, 0xfa, 0x59, 0x47, 0xf0, 0xad, 0xd4, 0xa2, 0xaf, 0x9c, 0xa4, 0x72, 0xc0,
   0xb7, 0xfd, 0x93, 0x26, 0x36, 0x3f, 0xf7, 0xcc, 0x34, 0xa5, 0xe5, 0xf1, 0x71, 0xd8, 0x31, 0x15,
   0x04, 0xc7, 0x23, 0xc3, 0x18, 0x96, 0x05, 0x9a, 0x07, 0x12, 0x80, 0xe2, 0xeb, 0x27, 0xb2, 0x75,
   0x09, 0x83, 0x2c, 0x1a, 0x1b, 0x6e, 0x5a, 0xa0, 0x52, 0x3b, 0xd6, 0xb3, 0x29, 0xe3, 0x2f, 0x84,
   0x53, 0xd1, 0x00, 0xed, 0x20, 0xfc, 0xb1, 0x5b, 0x6a, 0xcb, 0xbe, 0x39, 0x4a, 0x4c, 0x58, 0xcf,
   0xd0, 0xef, 0xaa, 0xfb, 0x43, 0x4d, 0x33, 0x85, 0x45, 0xf9, 0x02, 0x7f, 0x50, 0x3c, 0x9f, 0xa8,
   0x51, 0xa3, 0x40, 0x8f, 0x92, 0x9d, 0x38, 0xf5, 0xbc, 0xb6, 0xda, 0x21, 0x10, 0xff, 0xf3, 0xd2,
   0xcd, 0x0c, 0x13, 0xec, 0x5f, 0x97, 0x44, 0x17, 0xc4, 0xa7, 0x7e, 0x3d, 0x64, 0x5d, 0x19, 0x73,
   0x60, 0x81, 0x4f, 0xdc, 0x22, 0x2a, 0x90, 0x88, 0x46, 0xee, 0xb8, 0x14, 0xde, 0x5e, 0x0b, 0xdb,
   0xe0, 0x32, 0x3a, 0x0a, 0x49, 0x06, 0x24, 0x5c, 0xc2, 0xd3, 0xac, 0x62, 0x91, 0x95, 0xe4, 0x79,
   0xe7, 0xc8, 0x37, 0x6d, 0x8d, 0xd5, 0x4e, 0xa9, 0x6c, 0x56, 0xf4, 0xea, 0x65, 0x7a, 0xae, 0x08,
   0xba, 0x78, 0x25, 0x2e, 0x1c, 0xa6, 0xb4, 0xc6, 0xe8, 0xdd, 0x74, 0x1f, 0x4b, 0xbd, 0x8b, 0x8a,
   0x70, 0x3e, 0xb5, 0x66, 0x48, 0x03, 0xf6, 0x0e, 0x61, 0x35, 0x57, 0xb9, 0x86, 0xc1, 0x1d, 0x9e,
   0xe1, 0xf8, 0x98, 0x11, 0x69, 0xd9, 0x8e, 0x94, 0x9b, 0x1e, 0x87, 0xe9, 0xce, 0x55, 0x28, 0xdf,
   0x8c, 0xa1, 0x89, 0x0d, 0xbf, 0xe6, 0x42, 0x68, 0x41, 0x99, 0x2d, 0x0f, 0xb0, 0x54, 0xbb, 0x16]

def sbox (b : Nat) : Nat := aesSbox.getD (b % 256) 0

/-- GF(2^8) doubling with the AES polynomial. -/
def xtime (b : Nat) : Nat :=
  let d := (b * 2) % 256
  if b % 256 ≥ 128 then Nat.xor d 0x1b else d

def aesRcon : List Nat := [0x01, 0x02, 0x04, 0x08, 0x10, 0x20, 0x40]

def subWord (w : Bytes) : Bytes := w.map sbox

def rotWord : Bytes → Bytes
  | a :: rest => rest ++ [a]
  | [] => []

def chunksOf4 : Bytes → List Bytes
  | a :: b :: c :: d :: rest => [a, b, c, d] :: chunksOf4 rest
  | _ => []

/-- AES-256 key expansion step: words 8 … 8+i. -/
def aesExpandFrom (ws : List Bytes) (i : Nat) : List Bytes :=
  match i with
  | 0 => ws
  | n + 1 =>
    let prev := aesExpandFrom ws n
    let j := 8 + n
    let wPrev := prev.getD (j - 1) []
    let wOld := prev.getD (j - 8) []
    let temp :=
      if j % 8 == 0 then
        xorBytes (subWord (rotWord wPrev)) [aesRcon.getD (j / 8 - 1) 0, 0, 0, 0]
      else if j % 8 == 4 then
        subWord wPrev
      else wPrev
    prev ++ [xorBytes wOld temp]

/-- The 60 round-key words of AES-256. -/
def aesKeySchedule (key : Bytes) : List Bytes :=
  aesExpandFrom (chunksOf4 key) 52

def subBytesOp (st : Bytes) : Bytes := st.map sbox

/-- AES state is the usual column-major 16 bytes (byte index `r + 4c`). -/
def shiftRowsOp (st : Bytes) : Bytes :=
  [st.getD 0 0, st.getD 5 0, st.getD 10 0, st.getD 15 0,
   st.getD 4 0, st.getD 9 0, st.getD 14 0, st.getD 3 0,
   st.getD 8 0, st.getD 13 0, st.getD 2 0, st.getD 7 0,
   st.getD 12 0, st.getD 1 0, st.getD 6 0, st.getD 11 0]

def mixColumn (c : Bytes) : Bytes :=
  match c with
  | [a0, a1, a2, a3] =>
    [Nat.xor (Nat.xor (xtime a0) (Nat.xor (xtime a1) a1)) (Nat.xor a2 a3),
     Nat.xor (Nat.xor a0 (xtime a1)) (Nat.xor (Nat.xor (xtime a2) a2) a3),
     Nat.xor (Nat.xor a0 a1) (Nat.xor (xtime a2) (Nat.xor (xtime a3) a3)),
     Nat.xor (Nat.xor (Nat.xor (xtime a0) a0) a1) (Nat.xor a2 (xtime a3))]
  | other => other

def mixColumnsOp (st : Bytes) : Bytes :=
  (chunksOf4 st).foldr (fun c acc => mixColumn c ++ acc) []

def flattenWords (ws : List Bytes) : Bytes :=
  ws.foldr (fun w acc => w ++ acc) []

def addRoundKey (st rk : Bytes) : Bytes := xorBytes st rk

def aesRoundsGo (st : Bytes) (rks : List Bytes) (i : Nat) : Bytes :=
  match i with
  | 0 => st
  | n + 1 =>
    let prev := aesRoundsGo st rks n
    let rk := flattenWords ((rks.drop (4 * (n + 1))).take 4)
    if n + 1 == 14 then
      addRoundKey (shiftRowsOp (subBytesOp prev)) rk
    else
      addRoundKey (mixColumnsOp (shiftRowsOp (subBytesOp prev))) rk

/-- AES-256 encryption of one 16-byte block (raw). -/
def aes256BlockRaw (key block : Bytes) : Bytes :=
  let rks := aesKeySchedule key
  aesRoundsGo (addRoundKey block (flattenWords (rks.take 4))) rks 14

/-- AES-256 block function, normalized to exactly 16 output bytes.
On every 32-byte key and 16-byte block `aes256BlockRaw` already returns 16
bytes, so the normalization is the identity on all code paths; it only
packages the block-size invariant for plaintext-length bookkeeping. -/
def aes256Block (key block : Bytes) : Bytes :=
  (aes256BlockRaw key block ++ List.replicate 16 0).take 16

/-! ## AES-GCM (NIST SP 800-38D), 12-byte nonce, 16-byte tag -/

/-- The GHASH reduction constant `R = 0xe1 …`. -/
def gcmR : Nat := 0xe1000000000000000000000000000000

/-- One GF(2^128) product, 128 shift-and-add steps, MSB of `x` first. -/
def gfMulGo (n x z v : Nat) : Nat :=
  match n with
  | 0 => z
  | k + 1 =>
    let z2 := if (x >>> 127) % 2 = 1 then Nat.xor z v else z
    let v2 := if v % 2 = 1 then Nat.xor (v >>> 1) gcmR else v >>> 1
    gfMulGo k ((x <<< 1) % 340282366920938463463374607431768211456) z2 v2

def gfMul (x y : Nat) : Nat := gfMulGo 128 x 0 y

def chunks16 (l : Bytes) (fuel : Nat) : List Bytes :=
  match fuel with
  | 0 => []
  | k + 1 => if l.length = 0 then [] else l.take 16 :: chunks16 (l.drop 16) k

/-- Zero-pad a 16-byte block fragment. -/
def padBlock16 (b : Bytes) : Bytes := b ++ List.replicate (16 - b.length) 0

/-- Zero-pad a byte string up to a 16-byte boundary. -/
def pad16z (b : Bytes) : Bytes := b ++ List.replicate ((16 - b.length % 16) % 16) 0

def ghash (hk : Nat) (data : Bytes) : Nat :=
  (chunks16 data (data.length / 16 + 1)).foldl
    (fun y b => gfMul (Nat.xor y (beToNat (padBlock16 b))) hk) 0

/-- GHASH input: padded AAD, padded ciphertext, then the two bit lengths. -/
def gcmAuthData (aad ct : Bytes) : Bytes :=
  pad16z aad ++ pad16z ct ++ natToBE 8 (aad.length * 8) ++ natToBE 8 (ct.length * 8)

/-- Counter block `i` for a 12-byte nonce (`J0` is `i = 1`). -/
def gcmCtrBlock (nonce : Bytes) (i : Nat) : Bytes := nonce.take 12 ++ natToBE 4 i

def gcmKeystream (key nonce : Bytes) (n : Nat) : Bytes :=
  ((List.range (n / 16 + 1)).flatMap (fun j => aes256Block key (gcmCtrBlock nonce (j + 2)))).take n

def gcmTag (key nonce aad ct : Bytes) : Bytes :=
  let hk := beToNat (aes256Block key (List.replicate 16 0))
  xorBytes (aes256Block key (gcmCtrBlock nonce 1)) (natToBE 16 (ghash hk (gcmAuthData aad ct)))

/-- Rust `Aes256Gcm::encrypt`: ciphertext with the 16-byte tag appended. -/
def gcmSeal (key nonce aad pt : Bytes) : Bytes :=
  let ct := xorBytes pt (gcmKeystream key nonce pt.length)
  ct ++ gcmTag key nonce aad ct

/-- Rust `Aes256Gcm::decrypt`: verify the tag, then decrypt; `none` on failure. -/
def gcmOpen (key nonce aad data : Bytes) : Option Bytes :=
  if data.length < 16 then none
  else
    let ct := data.take (data.length - 16)
    let tag := data.drop (data.length - 16)
    if gcmTag key nonce aad ct = tag then
      some (xorBytes ct (gcmKeystream key nonce ct.length))
    else none

/-! ## ChaCha20, HChaCha20, Poly1305, XChaCha20-Poly1305 (RFC 8439 /
`chacha20poly1305` crate) -/

def chachaQR (st : List Nat) (ia ib ic id : Nat) : List Nat :=
  let a0 := st.getD ia 0
  let b0 := st.getD ib 0
  let c0 := st.getD ic 0
  let d0 := st.getD id 0
  let a1 := add32 a0 b0
  let d1 := rotl32 (Nat.xor d0 a1) 16
  let c1 := add32 c0 d1
  let b1 := rotl32 (Nat.xor b0 c1) 12
  let a2 := add32 a1 b1
  let d2 := rotl32 (Nat.xor d1 a2) 8
  let c2 := add32 c1 d2
  let b2 := rotl32 (Nat.xor b1 c2) 7
  (((st.set ia a2).set ib b2).set ic c2).set id d2

def chachaDoubleRound (st : List Nat) : List Nat :=
  chachaQR (chachaQR (chachaQR (chachaQR
    (chachaQR (chachaQR (chachaQR (chachaQR st 0 4 8 12) 1 5 9 13) 2 6 10 14) 3 7 11 15)
    0 5 10 15) 1 6 11 12) 2 7 8 13) 3 4 9 14

def chachaRounds (st : List Nat) (n : Nat) : List Nat :=
  match n with
  | 0 => st
  | k + 1 => chachaDoubleRound (chachaRounds st k)

def bytesToWordsLE : Bytes → List Nat
  | b0 :: b1 :: b2 :: b3 :: rest =>
      (b0 % 256 + (b1 % 256) * 256 + (b2 % 256) * 65536 + (b3 % 256) * 16777216) :: bytesToWordsLE rest
  | _ => []

def chachaConsts : List Nat := [0x61707865, 0x3320646e, 0x79622d32, 0x6b206574]

/-- Pad or truncate a word list to exactly `n` words (identity for
well-formed 32-byte keys / 12-byte nonces, as enforced by the crate types). -/
def padWords (ws : List Nat) (n : Nat) : List Nat := (ws ++ List.replicate n 0).take n

def chachaInitSt (key : Bytes) (counter : Nat) (nonce : Bytes) : List Nat :=
  chachaConsts ++ padWords (bytesToWordsLE key) 8 ++
    ([counter % 4294967296] ++ padWords (bytesToWordsLE nonce) 3)

/-- The 64-byte ChaCha20 block for (key, counter, 12-byte nonce). -/
def chachaBlock (key : Bytes) (counter : Nat) (nonce : Bytes) : Bytes :=
  let init := chachaInitSt key counter nonce
  (List.zipWith add32 init (chachaRounds init 10)).flatMap word32ToLE

def chachaKeystream (key : Bytes) (counterStart : Nat) (nonce : Bytes) (n : Nat) : Bytes :=
  ((List.range (n / 64 + 1)).flatMap (fun j => chachaBlock key (counterStart + j) nonce)).take n

/-- HChaCha20: 16-byte nonce, no final addition, words 0-3 and 12-15. -/
def hchacha (key nonce16 : Bytes) : Bytes :=
  let init := chachaConsts ++ padWords (bytesToWordsLE key) 8 ++ padWords (bytesToWordsLE nonce16) 4
  let fin := chachaRounds init 10
  (fin.take 4 ++ (fin.drop 12).take 4).flatMap word32ToLE

def polyClampMask : Nat := 0x0ffffffc0ffffffc0ffffffc0fffffff

def polyPrime : Nat := 1361129467683753853853498429727072845819

/-- Poly1305 MAC over `msg` with a 32-byte one-time key. -/
def poly1305 (key msg : Bytes) : Bytes :=
  let r := Nat.land (leToNat (key.take 16)) polyClampMask
  let s := leToNat ((key.drop 16).take 16)
  let acc := (chunks16 msg (msg.length / 16 + 1)).foldl
    (fun a c => ((a + leToNat c + 2 ^ (8 * c.length)) * r) % polyPrime) 0
  natToLE 16 ((acc + s) % 340282366920938463463374607431768211456)

/-- Poly1305 input of the ChaCha20-Poly1305 AEAD (RFC 8439 §2.8). -/
def cpAuthData (aad ct : Bytes) : Bytes :=
  pad16z aad ++ pad16z ct ++ natToLE 8 aad.length ++ natToLE 8 ct.length

def chachaPolyTag (key nonce aad ct : Bytes) : Bytes :=
  poly1305 ((chachaBlock key 0 nonce).take 32) (cpAuthData aad ct)

/-- ChaCha20-Poly1305 seal: ciphertext with the 16-byte tag appended. -/
def chachaPolySeal (key nonce aad pt : Bytes) : Bytes :=
  let ct := xorBytes pt (chachaKeystream key 1 nonce pt.length)
  ct ++ chachaPolyTag key nonce aad ct

def chachaPolyOpen (key nonce aad data : Bytes) : Option Bytes :=
  if data.length < 16 then none
  else
    let ct := data.take (data.length - 16)
    let tag := data.drop (data.length - 16)
    if chachaPolyTag key nonce aad ct = tag then
      some (xorBytes ct (chachaKeystream key 1 nonce ct.length))
    else none

/-- XChaCha20-Poly1305 seal: HChaCha20 subkey, 4-zero-byte nonce prefix. -/
def xchachaSeal (key nonce24 aad pt : Bytes) : Bytes :=
  chachaPolySeal (hchacha key (nonce24.take 16)) ([0, 0, 0, 0] ++ nonce24.drop 16) aad pt

def xchachaOpen (key nonce24 aad data : Bytes) : Option Bytes :=
  chachaPolyOpen (hchacha key (nonce24.take 16)) ([0, 0, 0, 0] ++ nonce24.drop 16) aad data

/-- Decidable equality for `Except`, for evaluating fallible operations on
concrete inputs. -/
instance {ε α : Type} [DecidableEq ε] [DecidableEq α] : DecidableEq (Except ε α) := by
  intro x y
  cases x <;> cases y
  case error.error a b =>
    exact if h : a = b then isTrue (by rw [h]) else isFalse (fun hh => h (by injection hh))
  case error.ok a b => exact isFalse (fun hh => by injection hh)
  case ok.error a b => exact isFalse (fun hh => by injection hh)
  case ok.ok a b =>
    exact if h : a = b then isTrue (by rw [h]) else isFalse (fun hh => h (by injection hh))

/-! ## `alfa_keyvault::error::AlfaKeyVaultError` -/

inductive KvError where
  | VaultExists (path : String)
  | VaultNotFound (path : String)
  | InvalidJson (msg : String)
  | Crypto (msg : String)
  | AuthFailed
  | Io (msg : String)
  | Base64 (msg : String)
  | VaultLocked
  | VersionMismatch (expected got : String)
  | ThreatDetected (msg : String)
  | PolicyViolation (msg : String)
  | MaxAttemptsReached (n : Nat)
  | VaultCorrupted
  | SnapshotError (msg : String)
  | BrainError (msg : String)
  | LockdownActive
  | KeyDerivationFailed (msg : String)
  | RotationRequired

/-! ## `alfa_photos_vault::error::VaultError`.
`photo_crypto.rs` constructs `VaultError::Crypto(..)` and `VaultError::Io(..)`
variants that `error.rs` does not declare (that module does not compile
against the checked-in error enum); both are included here so its logic can
be modelled as written. -/

inductive PvError where
  | EncryptionFailed (msg : String)
  | DecryptionFailed (msg : String)
  | KeyDerivationFailed (msg : String)
  | InvalidKeyLength (expected actual : Nat)
  | HmacVerificationFailed
  | VaultLocked
  | VaultAlreadyExists (path : String)
  | VaultNotFound (path : String)
  | VaultCorrupted (msg : String)
  | InvalidPin
  | BiometricFailed
  | TooManyAttempts
  | FileNotFound (path : String)
  | FileAlreadyExists (path : String)
  | InvalidFileFormat (msg : String)
  | IoError (msg : String)
  | IndexCorrupted (msg : String)
  | PhotoNotFound (id : String)
  | DatabaseError (msg : String)
  | ThumbnailFailed (msg : String)
  | ImageError (msg : String)
  | SerializationError (msg : String)
  | Crypto (msg : String)
  | Io (msg : String)

/-! ## `alfa_keyvault::crypto::aead` -/

inductive AeadCipher where
  | aes256Gcm
  | xchacha20Poly1305
deriving DecidableEq

def AeadCipher.nonceLen : AeadCipher → Nat
  | .aes256Gcm => 12
  | .xchacha20Poly1305 => 24

/-- Rust `encrypt_aes_gcm` (keyvault): random nonce a parameter, no AAD. -/
def kvEncryptAesGcm (seed kek nonce : Bytes) : Bytes × Bytes :=
  (nonce, gcmSeal kek nonce [] seed)

/-- Rust `decrypt_aes_gcm` (keyvault, lines 92–116): nonce-length check, AEAD
open mapping any authentication failure to `AuthFailed`, 32-byte check. -/
def kvDecryptAesGcm (kek nonce ct : Bytes) : Except KvError Bytes :=
  if nonce.length ≠ 12 then .error (.Crypto "Invalid AES-GCM nonce length")
  else
    match gcmOpen kek nonce [] ct with
    | none => .error .AuthFailed
    | some pt =>
      if pt.length ≠ 32 then .error (.Crypto "Invalid seed length") else .ok pt

def kvEncryptXchacha (seed kek nonce : Bytes) : Bytes × Bytes :=
  (nonce, xchachaSeal kek nonce [] seed)

def kvDecryptXchacha (kek nonce ct : Bytes) : Except KvError Bytes :=
  if nonce.length ≠ 24 then .error (.Crypto "Invalid XChaCha20 nonce length")
  else
    match xchachaOpen kek nonce [] ct with
    | none => .error .AuthFailed
    | some pt =>
      if pt.length ≠ 32 then .error (.Crypto "Invalid seed length") else .ok pt

/-- Rust `encrypt_seed`: dispatch on the cipher. -/
def encryptSeed (seed kek nonce : Bytes) (cipher : AeadCipher) : Bytes × Bytes :=
  match cipher with
  | .aes256Gcm => kvEncryptAesGcm seed kek nonce
  | .xchacha20Poly1305 => kvEncryptXchacha seed kek nonce

/-- Rust `decrypt_seed`: dispatch on the cipher. -/
def decryptSeed (kek nonce ct : Bytes) (cipher : AeadCipher) : Except KvError Bytes :=
  match cipher with
  | .aes256Gcm => kvDecryptAesGcm kek nonce ct
  | .xchacha20Poly1305 => kvDecryptXchacha kek nonce ct

/-! ## `alfa_keyvault::crypto::hkdf_derive` -/

/-- Rust `derive_subkey_fixed::<32>`: HKDF with no salt, the purpose as info. -/
def deriveSubkeyFixed32 (seed : Bytes) (purpose : String) : Bytes :=
  hkdfSha256 none seed (strBytes purpose)

/-! ## `alfa_photos_vault::crypto::aead` -/

/-- Rust `EncryptedData`: nonce plus ciphertext-with-tag. -/
structure EncryptedData where
  nonce : Bytes
  ciphertext : Bytes
deriving DecidableEq

def EncryptedData.toBytes (e : EncryptedData) : Bytes := e.nonce ++ e.ciphertext

def edFromBytesAes (data : Bytes) : Except PvError EncryptedData :=
  if data.length < 12 + 16 then .error (.DecryptionFailed "Data too short")
  else .ok ⟨data.take 12, data.drop 12⟩

def edFromBytesXchacha (data : Bytes) : Except PvError EncryptedData :=
  if data.length < 24 + 16 then .error (.DecryptionFailed "Data too short")
  else .ok ⟨data.take 24, data.drop 24⟩

/-- Rust `encrypt_aes_gcm` (photos vault): key length checked by `new_from_slice`. -/
def pvEncryptAesGcm (key nonce pt : Bytes) : Except PvError EncryptedData :=
  if key.length ≠ 32 then .error (.EncryptionFailed "Invalid key length")
  else .ok ⟨nonce, gcmSeal key nonce [] pt⟩

/-- Rust `decrypt_aes_gcm` (photos vault): auth failure is `DecryptionFailed`. -/
def pvDecryptAesGcm (key : Bytes) (e : EncryptedData) : Except PvError Bytes :=
  if key.length ≠ 32 then .error (.DecryptionFailed "Invalid key length")
  else if e.nonce.length ≠ 12 then .error (.DecryptionFailed "Invalid nonce length")
  else
    match gcmOpen key e.nonce [] e.ciphertext with
    | none => .error (.DecryptionFailed "Authentication failed")
    | some pt => .ok pt

def pvEncryptXchacha (key nonce pt : Bytes) : Except PvError EncryptedData :=
  if key.length ≠ 32 then .error (.EncryptionFailed "Invalid key length")
  else .ok ⟨nonce, xchachaSeal key nonce [] pt⟩

def pvDecryptXchacha (key : Bytes) (e : EncryptedData) : Except PvError Bytes :=
  if key.length ≠ 32 then .error (.DecryptionFailed "Invalid key length")
  else if e.nonce.length ≠ 24 then .error (.DecryptionFailed "Invalid nonce length")
  else
    match xchachaOpen key e.nonce [] e.ciphertext with
    | none => .error (.DecryptionFailed "Authentication failed")
    | some pt => .ok pt

/-- Rust `compute_hmac` (photos vault): plain HMAC-SHA256. -/
def pvComputeHmac (key data : Bytes) : Bytes := hmacSha256 key data

/-- Rust `verify_hmac` (photos vault). -/
def pvVerifyHmac (key data expected : Bytes) : Bool := pvComputeHmac key data == expected

/-! ## `alfa_photos_vault::crypto::keys` -/

def ctxPhotos : Bytes := strBytes "ALFA:PHOTOS:v1"
def ctxThumbs : Bytes := strBytes "ALFA:THUMBS:v1"
def ctxIndex : Bytes := strBytes "ALFA:INDEX:v1"
def ctxMetadata : Bytes := strBytes "ALFA:METADATA:v1"
def ctxFileKey : Bytes := strBytes "ALFA:FILE:v1"
def ctxHmac : Bytes := strBytes "ALFA:HMAC:v1"

/-- Rust `derive_key(ikm, salt, info)`: HKDF-SHA256 with an explicit salt. -/
def deriveKeyP (ikm salt info : Bytes) : Bytes := hkdfSha256 (some salt) ikm info

/-- Rust `KeyManager`: the master key and the four derived purpose keys. -/
structure KeyManagerM where
  master : Bytes
  photosKey : Bytes
  thumbsKey : Bytes
  indexKey : Bytes
  hmacKey : Bytes
deriving DecidableEq

/-- Rust `KeyManager::from_master_seed`. -/
def kmFromMasterSeed (seed : Bytes) : Except PvError KeyManagerM :=
  if seed.length < 32 then .error (.InvalidKeyLength 32 seed.length)
  else
    let master := deriveKeyP seed [] ctxPhotos
    .ok ⟨master,
         deriveKeyP master (strBytes "photos") ctxPhotos,
         deriveKeyP master (strBytes "thumbs") ctxThumbs,
         deriveKeyP master (strBytes "index") ctxIndex,
         deriveKeyP master (strBytes "hmac") ctxHmac⟩

/-- Rust `KeyManager::derive_file_key`. -/
def kmDeriveFileKey (km : KeyManagerM) (fileId : String) : Bytes :=
  deriveKeyP km.photosKey (strBytes fileId) ctxFileKey

/-- Rust `KeyManager::derive_thumb_key`. -/
def kmDeriveThumbKey (km : KeyManagerM) (fileId : String) : Bytes :=
  deriveKeyP km.thumbsKey (strBytes fileId) ctxFileKey

/-- Modelled from the spec: §4.5 defines
`derive_file(file_id) = HKDF(photos_key, salt = file_id_bytes, info = "ALFA:FILE:v1")`;
this definition follows the spec's words so the code's two `derive_file_key`
functions can be compared against it. -/
def specDeriveFile (photosKey : Bytes) (fileId : String) : Bytes :=
  hkdfSha256 (some (strBytes fileId)) photosKey (strBytes "ALFA:FILE:v1")

/-! ## `alfa_photos_vault::photo_crypto::PhotoCrypto` -/

def pcMagic : Bytes := strBytes "ALFAPHOT"

structure PhotoCryptoM where
  masterKey : Bytes
  hmacKey : Bytes
deriving DecidableEq

/-- Rust `PhotoCrypto::derive_file_key`: HKDF with NO salt and info
`"ALFA:PHOTO:FILE:<photo_id>"`. -/
def pcDeriveFileKey (pc : PhotoCryptoM) (photoId : String) : Bytes :=
  hkdfSha256 none pc.masterKey (strBytes ("ALFA:PHOTO:FILE:" ++ photoId))

def pcComputeHmac (pc : PhotoCryptoM) (data : Bytes) : Bytes :=
  hmacSha256 pc.hmacKey data

def pcVerifyHmac (pc : PhotoCryptoM) (data expected : Bytes) : Bool :=
  pcComputeHmac pc data == expected

/-- Rust `PhotoCrypto::encrypt_bytes`: AES-GCM with AAD = photo id, framed as
`MAGIC || version || nonce || ct+tag || HMAC`. -/
def pcEncryptBytes (pc : PhotoCryptoM) (pt : Bytes) (photoId : String) (nonce : Bytes) :
    Except PvError Bytes :=
  let fileKey := pcDeriveFileKey pc photoId
  if fileKey.length ≠ 32 then .error (.Crypto "Invalid key")
  else
    let ct := gcmSeal fileKey nonce (strBytes photoId) pt
    let content := pcMagic ++ [1] ++ nonce ++ ct
    .ok (content ++ pcComputeHmac pc content)

/-- Rust `PhotoCrypto::decrypt_bytes` (photo_crypto.rs lines 186–242). -/
def pcDecryptBytes (pc : PhotoCryptoM) (data : Bytes) (photoId : String) :
    Except PvError Bytes :=
  if data.length < 69 then .error (.Crypto "File too small")
  else if data.take 8 ≠ pcMagic then .error (.Crypto "Invalid magic bytes")
  else if data.getD 8 0 ≠ 1 then .error (.Crypto "Unsupported version")
  else
    let hmacStart := data.length - 32
    let storedHmac := data.drop hmacStart
    if ¬ pcVerifyHmac pc (data.take hmacStart) storedHmac then
      .error (.Crypto "HMAC verification failed")
    else
      let nonceBytes := (data.drop 9).take 12
      let ct := (data.drop 21).take (hmacStart - 21)
      let fileKey := pcDeriveFileKey pc photoId
      if fileKey.length ≠ 32 then .error (.Crypto "Invalid key")
      else
        match gcmOpen fileKey nonceBytes (strBytes photoId) ct with
        | none => .error (.Crypto "Decryption failed - wrong key or corrupted")
        | some pt => .ok pt

/-! ## `alfa_keyvault::snapshot` -/

structure KdfParamsM where
  algorithm : Bytes
  timeCost : Nat
  memoryCostKib : Nat
  parallelism : Nat
deriving DecidableEq

/-- Rust `PqxSnapshot`. String fields carry their UTF-8 bytes (`timestamp` is the
RFC-3339 rendering that `to_rfc3339()` produces); `keyUsages` is the
`HashMap<String, u64>` listed in its iteration order, which for a Rust
`HashMap` is arbitrary and in particular not sorted. -/
structure PqxSnapshotM where
  version : Bytes
  epoch : Nat
  timestamp : Bytes
  kdfParams : KdfParamsM
  keyUsages : List (Bytes × Nat)
  prevHash : Option Bytes
  signature : Bytes
  metadata : List (Bytes × Bytes)
deriving DecidableEq

/-- Rust `PqxSnapshot::new`. -/
def pqxNew (epoch : Nat) (params : KdfParamsM) (usages : List (Bytes × Nat))
    (prevHash : Option Bytes) (timestamp : Bytes) : PqxSnapshotM :=
  ⟨strBytes "4.0-PQX", epoch, timestamp, params, usages, prevHash, [], []⟩

/-- The exact byte stream `compute_hash` feeds to SHA-256: version, epoch
(LE 8), timestamp, algorithm, time cost (LE 4), memory KiB (LE 4), each
(purpose, count) pair in map-iteration order, then `prev_hash` if present.
Note that `kdf_params.parallelism`, `metadata` and `signature` are not
hashed. -/
def snapshotHashStream (s : PqxSnapshotM) : Bytes :=
  s.version ++ natToLE 8 s.epoch ++ s.timestamp ++ s.kdfParams.algorithm ++
  natToLE 4 s.kdfParams.timeCost ++ natToLE 4 s.kdfParams.memoryCostKib ++
  (s.keyUsages.flatMap (fun p => p.1 ++ natToLE 8 p.2)) ++
  (s.prevHash.getD [])

/-- Rust `PqxSnapshot::compute_hash`: lowercase hex of the SHA-256 digest. -/
def pqxComputeHash (s : PqxSnapshotM) : Bytes :=
  hexEncode (sha256 (snapshotHashStream s))

def purposeSnapshotSign : String := "ALFA:snapshot:sign"

/-- Rust `PqxSnapshot::sign`: HMAC over the ASCII hex hash under the derived
signing key, stored as lowercase hex. -/
def pqxSign (seed : Bytes) (s : PqxSnapshotM) : PqxSnapshotM :=
  { s with signature :=
      hexEncode (hmacSha256 (deriveSubkeyFixed32 seed purposeSnapshotSign) (pqxComputeHash s)) }

/-- Rust `PqxSnapshot::verify`: recompute the MAC and compare with the decoded
signature (`hex::decode(..).unwrap_or_default()`). -/
def pqxVerify (seed : Bytes) (s : PqxSnapshotM) : Bool :=
  hmacSha256 (deriveSubkeyFixed32 seed purposeSnapshotSign) (pqxComputeHash s) ==
    hexDecodeD s.signature

/-- Rust `SnapshotManager`: the snapshot directory is modelled as the list of
stored snapshots in ascending epoch order (which is how `list_snapshots`
sorted descending and then reversed presents them to `verify_chain`). -/
structure SnapshotMgrM where
  maxSnapshots : Nat
  currentEpoch : Nat
  lastHash : Option Bytes
  snaps : List PqxSnapshotM
deriving DecidableEq

def mgrNew (maxSnapshots : Nat) : SnapshotMgrM := ⟨maxSnapshots, 0, none, []⟩

/-- Rust `SnapshotManager::create_snapshot` (timestamp passed explicitly);
includes `cleanup_old_snapshots`, which removes the oldest files beyond
`max_snapshots`. -/
def mgrCreateSnapshot (m : SnapshotMgrM) (seed : Bytes) (params : KdfParamsM)
    (usages : List (Bytes × Nat)) (timestamp : Bytes) : SnapshotMgrM × PqxSnapshotM :=
  let epoch := m.currentEpoch + 1
  let s := pqxSign seed (pqxNew epoch params usages m.lastHash timestamp)
  let stored := m.snaps ++ [s]
  ({ m with currentEpoch := epoch,
            lastHash := some (pqxComputeHash s),
            snaps := stored.drop (stored.length - m.maxSnapshots) }, s)

/-- Rust `ChainVerification`. -/
structure ChainVerificationM where
  total : Nat
  valid : Nat
  invalid : List Nat
  chainIntact : Bool
deriving DecidableEq

/-- One `verify_chain` loop iteration: on a bad signature record the epoch
and break the chain without updating the expected hash; otherwise check the
linkage and advance. -/
def chainStep (seed : Bytes) (acc : ChainVerificationM × Option Bytes) (s : PqxSnapshotM) :
    ChainVerificationM × Option Bytes :=
  let r := acc.1
  if ¬ pqxVerify seed s then
    ({ r with invalid := r.invalid ++ [s.epoch], chainIntact := false }, acc.2)
  else
    let intact := match acc.2 with
      | some expected => if s.prevHash == some expected then r.chainIntact else false
      | none => r.chainIntact
    ({ r with valid := r.valid + 1, chainIntact := intact }, some (pqxComputeHash s))

/-- Rust `SnapshotManager::verify_chain`. -/
def mgrVerifyChain (seed : Bytes) (m : SnapshotMgrM) : ChainVerificationM :=
  (m.snaps.foldl (chainStep seed) (⟨m.snaps.length, 0, [], true⟩, none)).1

/-! ## `alfa_keyvault::policy` and `alfa_keyvault::brain` -/

inductive ThreatLevelM where
  | normal
  | elevated
  | high
  | critical
deriving DecidableEq

/-- Rust `ThreatLevel::from_score`. -/
def threatFromScore (score : Nat) : ThreatLevelM :=
  if score ≤ 20 then .normal
  else if score ≤ 50 then .elevated
  else if score ≤ 80 then .high
  else .critical

structure PolicyMetricsM where
  failedAttempts24h : Nat
  unusualHourAccess : Bool
  rapidAccessAttempts : Bool
  newDeviceDetected : Bool
  lastAccess : Option Nat
deriving DecidableEq

/-- Rust `AutoPolicy` (the fields read by the modelled control flow; password
rules and Argon2 tuning fields are carried but unused here). -/
structure AutoPolicyM where
  maxFailedAttempts : Nat
  lockoutSeconds : Nat
  threatLevel : ThreatLevelM
  allowedHours : Option (List Nat)
  metrics : PolicyMetricsM
deriving DecidableEq

def autoPolicyDefault : AutoPolicyM :=
  ⟨5, 300, .normal, none, ⟨0, false, false, false, none⟩⟩

/-- Rust `AutoPolicy::calculate_threat_score`. -/
def calcThreatScore (p : AutoPolicyM) : Nat :=
  min 100 (p.metrics.failedAttempts24h * 10 +
    (if p.metrics.unusualHourAccess then 20 else 0) +
    (if p.metrics.rapidAccessAttempts then 30 else 0) +
    (if p.metrics.newDeviceDetected then 15 else 0))

inductive AccessEventTypeM where
  | unlockEv
  | lockEv
  | deriveKeyEv
  | rotateKeyEv
  | snapshotEv
  | policyUpdateEv
  | threatEv
  | lockdownEv
deriving DecidableEq

/-- Rust `AccessEvent`; timestamps are seconds. -/
structure AccessEventM where
  timestamp : Nat
  eventType : AccessEventTypeM
  keyPurpose : Option Bytes
  success : Bool
  durationMs : Nat
  source : Bytes
deriving DecidableEq

/-- Rust `UsageProfile` (hour histogram and key usage; the remaining profile
fields feed no branch of the modelled operations). -/
structure UsageProfileM where
  hourlyAccess : List Nat
  keyUsage : List (Bytes × Nat)
deriving DecidableEq

def bumpUsage (l : List (Bytes × Nat)) (k : Bytes) : List (Bytes × Nat) :=
  match l with
  | [] => [(k, 1)]
  | (k0, c) :: rest => if k0 = k then (k0, c + 1) :: rest else (k0, c) :: bumpUsage rest k

/-- Rust `VaultBrain` mutable state. -/
structure BrainSt where
  events : List AccessEventM
  maxEvents : Nat
  profile : UsageProfileM
  policy : AutoPolicyM
  lockdownActive : Bool
  lockdownStarted : Option Nat
  failedAttempts : Nat
  lastSuccess : Option Nat
deriving DecidableEq

def brainNew : BrainSt :=
  ⟨[], 1000, ⟨List.replicate 24 0, []⟩, autoPolicyDefault, false, none, 0, none⟩

/-- Rust `update_profile`. -/
def updateProfile (st : BrainSt) (e : AccessEventM) : BrainSt :=
  let hour := e.timestamp / 3600 % 24
  let prof := st.profile
  let prof := { prof with hourlyAccess := prof.hourlyAccess.set hour (prof.hourlyAccess.getD hour 0 + 1) }
  let prof := match e.keyPurpose with
    | some p => { prof with keyUsage := bumpUsage prof.keyUsage p }
    | none => prof
  { st with profile := prof }

/-- Append the event, evicting the oldest if the buffer is full. -/
def pushEvent (st : BrainSt) (e : AccessEventM) : BrainSt :=
  let evs := if st.events.length ≥ st.maxEvents then st.events.drop 1 else st.events
  { st with events := evs ++ [e] }

/-- The non-lockdown tail of `check_and_update_policy`: refresh the policy
metrics and recompute the threat level (`now` is the event timestamp). -/
def updatePolicyMetrics (st : BrainSt) (now : Nat) : BrainSt :=
  let avg := (st.profile.hourlyAccess.foldl (· + ·) 0) / 24
  let isUnusual := st.profile.hourlyAccess.getD (now / 3600 % 24) 0 < avg / 2
  let m := { st.policy.metrics with
      failedAttempts24h := st.failedAttempts,
      unusualHourAccess := isUnusual,
      lastAccess := some now }
  let p := { st.policy with metrics := m }
  { st with policy := { p with threatLevel := threatFromScore (calcThreatScore p) } }

/-- The synthetic event that `enter_lockdown` records. -/
def lockdownEvent (now : Nat) : AccessEventM :=
  ⟨now, .lockdownEv, none, false, 0, strBytes "Max failed attempts reached"⟩

/-- Rust `VaultBrain::record_event`.  The Rust function updates the counters,
appends the event and calls `check_and_update_policy`, which on
`failed_attempts >= max_failed_attempts` calls `enter_lockdown`, which in
turn calls `record_event` again with a `Lockdown` event.  That nested call
is genuine recursion in the source (and re-acquires the non-reentrant
`events` write lock); the embedding makes the recursion explicit with a
fuel argument: `none` means the call never returns. -/
def recordEventGo (fuel : Nat) (st : BrainSt) (e : AccessEventM) : Option BrainSt :=
  match fuel with
  | 0 => none
  | f + 1 =>
    let st1 := updateProfile st e
    let st2 :=
      if e.success then { st1 with failedAttempts := 0, lastSuccess := some e.timestamp }
      else if e.eventType = .unlockEv then { st1 with failedAttempts := st1.failedAttempts + 1 }
      else st1
    let st3 := pushEvent st2 e
    if st3.failedAttempts ≥ st3.policy.maxFailedAttempts then
      recordEventGo f
        { st3 with lockdownActive := true, lockdownStarted := some e.timestamp }
        (lockdownEvent e.timestamp)
    else
      some (updatePolicyMetrics st3 e.timestamp)

/-- Rust `VaultBrain::exit_lockdown`. -/
def exitLockdown (st : BrainSt) : BrainSt :=
  { st with lockdownActive := false, lockdownStarted := none, failedAttempts := 0 }

/-- Rust `VaultBrain::is_lockdown_active`: lazily exits an expired lockdown. -/
def isLockdownActive (st : BrainSt) (now : Nat) : Bool × BrainSt :=
  if ¬ st.lockdownActive then (false, st)
  else
    match st.lockdownStarted with
    | some start =>
      if now - start > st.policy.lockoutSeconds then (false, exitLockdown st) else (true, st)
    | none => (true, st)

/-! ## `alfa_photos_vault::rotation` -/

structure RotationPolicyM where
  rotationIntervalDays : Nat
  autoRotate : Bool
  warningDays : Nat
  keepEpochs : Nat
deriving DecidableEq

def rotationPolicyDefault : RotationPolicyM := ⟨90, true, 7, 3⟩

structure EpochRecordM where
  epoch : Nat
  started : Nat
  ended : Nat
deriving DecidableEq

/-- Rust `RotationState`; times are seconds, `Duration::days(d)` is `d * 86400`. -/
structure RotationStateM where
  currentEpoch : Nat
  lastRotation : Nat
  nextRotation : Nat
  policy : RotationPolicyM
  epochHistory : List EpochRecordM
deriving DecidableEq

def rotationStateNew (policy : RotationPolicyM) (now : Nat) : RotationStateM :=
  ⟨1, now, now + policy.rotationIntervalDays * 86400, policy, []⟩

/-- Rust `RotationState::rotate` (rotation.rs lines 94–117): push a history
record, trim it, bump the epoch and the schedule.  Nothing else. -/
def rotationRotate (st : RotationStateM) (now : Nat) : Nat × RotationStateM :=
  let hist := st.epochHistory ++ [⟨st.currentEpoch, st.lastRotation, now⟩]
  let hist := hist.drop (hist.length - st.policy.keepEpochs)
  let epoch := st.currentEpoch + 1
  (epoch, { st with currentEpoch := epoch,
                    lastRotation := now,
                    nextRotation := now + st.policy.rotationIntervalDays * 86400,
                    epochHistory := hist })

/-- The vault-level state an `AlfaApi` handle owns: the encrypted files on
disk and the rotation state (`rotation.json`). -/
structure ApiStateM where
  files : List (String × Bytes)
  rotation : RotationStateM
deriving DecidableEq

/-- Rust `AlfaApi::rotate_keys(new_pin)` (api.rs lines 273–277): despite its
documentation it only calls `RotationManager::rotate` and persists the
bumped state; no file is read, decrypted, or re-encrypted. -/
def apiRotateKeys (st : ApiStateM) (now : Nat) : Nat × ApiStateM :=
  let r := rotationRotate st.rotation now
  (r.1, { st with rotation := r.2 })

/-! ## `alfa_photos_vault::vault::PhotoVault`

The filesystem under the vault root is an association list from relative
path to file bytes; the SQLite-backed `PhotoIndex` is the list of decrypted
`PhotoMeta` records it holds (its per-record XChaCha envelope is applied on
the way in and out and is not what any claim is about). -/

inductive VaultStateM where
  | locked
  | unlocked
  | lockdown
deriving DecidableEq

structure VaultConfigM where
  name : String
  version : String
  thumbSize : Nat
  aiEnabled : Bool
  maxFailedAttempts : Nat
deriving DecidableEq

def vaultConfigDefault : VaultConfigM := ⟨"ALFA Photos Vault", "1.0.0", 256, true, 5⟩

structure PhotoMetaM where
  id : String
  originalName : String
  encryptedSize : Nat
  originalSize : Nat
  mimeType : String
  hmac : Bytes
  tags : List String
  isHidden : Bool
  isFavorite : Bool
  phash : Option String
deriving DecidableEq

def lookupFile (files : List (String × Bytes)) (path : String) : Option Bytes :=
  (files.find? (fun p => p.1 = path)).map Prod.snd

def storeFile (files : List (String × Bytes)) (path : String) (data : Bytes) :
    List (String × Bytes) :=
  (files.filter (fun p => p.1 ≠ path)) ++ [(path, data)]

def removeFile (files : List (String × Bytes)) (path : String) : List (String × Bytes) :=
  files.filter (fun p => p.1 ≠ path)

structure PhotoVaultSt where
  config : VaultConfigM
  vstate : VaultStateM
  keys : Option KeyManagerM
  indexOpen : Bool
  metas : List PhotoMetaM
  files : List (String × Bytes)
  failedAttempts : Nat
deriving DecidableEq

/-- Rust `PhotoVault::ensure_unlocked`. -/
def ensureUnlocked (st : PhotoVaultSt) : Except PvError Unit :=
  if st.vstate ≠ .unlocked then .error .VaultLocked else .ok ()

/-- Rust `detect_mime`. -/
def detectMime (data : Bytes) : String :=
  if data.length < 8 then "application/octet-stream"
  else
    match data with
    | 0xFF :: 0xD8 :: 0xFF :: _ => "image/jpeg"
    | 0x89 :: 0x50 :: 0x4E :: 0x47 :: 0x0D :: 0x0A :: 0x1A :: 0x0A :: _ => "image/png"
    | 0x47 :: 0x49 :: 0x46 :: 0x38 :: _ => "image/gif"
    | 0x52 :: 0x49 :: 0x46 :: 0x46 :: _ =>
      if data.length > 12 ∧ (data.drop 8).take 4 = strBytes "WEBP" then "image/webp"
      else "application/octet-stream"
    | _ =>
      if data.length > 12 ∧ (data.drop 4).take 4 = strBytes "ftyp" then
        if (data.drop 8).take 4 = strBytes "heic" ∨ (data.drop 8).take 4 = strBytes "heix" then
          "image/heic"
        else if (data.drop 8).take 4 = strBytes "mif1" then "image/heif"
        else "application/octet-stream"
      else "application/octet-stream"

/-- Rust `PhotoVault::import_photo`.  The source bytes, the fresh UUID, the
two random nonces, and the (image-library) thumbnail and perceptual hash
are passed as parameters. -/
def pvImportPhoto (st : PhotoVaultSt) (plaintext : Bytes) (originalName : String)
    (id : String) (nonce thumbNonce : Bytes) (thumbData : Option Bytes)
    (phash : Option String) : Except PvError String × PhotoVaultSt :=
  match ensureUnlocked st with
  | .error e => (.error e, st)
  | .ok _ =>
    match st.keys with
    | none => (.error .VaultLocked, st)
    | some km =>
      let fileKey := kmDeriveFileKey km id
      match pvEncryptAesGcm fileKey nonce plaintext with
      | .error e => (.error e, st)
      | .ok encrypted =>
        let encryptedBytes := encrypted.toBytes
        let hmac := pvComputeHmac km.hmacKey encryptedBytes
        let files := storeFile st.files ("photos/" ++ id ++ ".enc") encryptedBytes
        let files :=
          match thumbData with
          | some td =>
            match pvEncryptAesGcm (kmDeriveThumbKey km id) thumbNonce td with
            | .ok encThumb => storeFile files ("thumbs/" ++ id ++ ".enc") encThumb.toBytes
            | .error _ => files
          | none => files
        let meta : PhotoMetaM :=
          ⟨id, originalName, encryptedBytes.length, plaintext.length,
           detectMime plaintext, hmac, [], false, false, phash⟩
        if st.indexOpen then
          (.ok id, { st with files := files, metas := st.metas ++ [meta] })
        else
          (.ok id, { st with files := files })

/-- Rust `PhotoIndex::get_photo` under `PhotoVault::get_photo_meta`'s gate. -/
def pvGetPhotoMeta (st : PhotoVaultSt) (id : String) :
    Except PvError PhotoMetaM × PhotoVaultSt :=
  match ensureUnlocked st with
  | .error e => (.error e, st)
  | .ok _ =>
    if ¬ st.indexOpen then (.error .VaultLocked, st)
    else
      match st.metas.find? (fun m => m.id = id) with
      | none => (.error (.PhotoNotFound id), st)
      | some m => (.ok m, st)

/-- Rust `PhotoVault::get_photo`: gate, meta lookup, file read, HMAC check
against the indexed value, then per-file AES-GCM decryption. -/
def pvGetPhoto (st : PhotoVaultSt) (id : String) : Except PvError Bytes × PhotoVaultSt :=
  match ensureUnlocked st with
  | .error e => (.error e, st)
  | .ok _ =>
    match st.keys with
    | none => (.error .VaultLocked, st)
    | some km =>
      match (pvGetPhotoMeta st id).1 with
      | .error e => (.error e, st)
      | .ok meta =>
        match lookupFile st.files ("photos/" ++ id ++ ".enc") with
        | none => (.error (.FileNotFound ("photos/" ++ id ++ ".enc")), st)
        | some encryptedBytes =>
          if ¬ pvVerifyHmac km.hmacKey encryptedBytes meta.hmac then
            (.error .HmacVerificationFailed, st)
          else
            match edFromBytesAes encryptedBytes with
            | .error e => (.error e, st)
            | .ok enc => ((pvDecryptAesGcm (kmDeriveFileKey km id) enc), st)

/-- Rust `PhotoVault::get_thumbnail`. -/
def pvGetThumbnail (st : PhotoVaultSt) (id : String) : Except PvError Bytes × PhotoVaultSt :=
  match ensureUnlocked st with
  | .error e => (.error e, st)
  | .ok _ =>
    match st.keys with
    | none => (.error .VaultLocked, st)
    | some km =>
      match lookupFile st.files ("thumbs/" ++ id ++ ".enc") with
      | none => (.error (.FileNotFound ("thumbs/" ++ id ++ ".enc")), st)
      | some encryptedBytes =>
        match edFromBytesAes encryptedBytes with
        | .error e => (.error e, st)
        | .ok enc => ((pvDecryptAesGcm (kmDeriveThumbKey km id) enc), st)

/-- Rust `PhotoVault::list_photos`. -/
def pvListPhotos (st : PhotoVaultSt) : Except PvError (List PhotoMetaM) × PhotoVaultSt :=
  match ensureUnlocked st with
  | .error e => (.error e, st)
  | .ok _ =>
    if ¬ st.indexOpen then (.error .VaultLocked, st) else (.ok st.metas, st)

/-- Rust `PhotoVault::delete_photo`. -/
def pvDeletePhoto (st : PhotoVaultSt) (id : String) : Except PvError Unit × PhotoVaultSt :=
  match ensureUnlocked st with
  | .error e => (.error e, st)
  | .ok _ =>
    let metas := if st.indexOpen then st.metas.filter (fun m => m.id ≠ id) else st.metas
    let files := removeFile st.files ("photos/" ++ id ++ ".enc")
    let files := removeFile files ("thumbs/" ++ id ++ ".enc")
    (.ok (), { st with metas := metas, files := files })

/-- Rust `PhotoVault::reset`: clear the thumbnail cache, rebuild (i.e. replace
with a freshly created, hence empty) index while counting unreadable
photos, and re-verify; returns the report. -/
def pvReset (st : PhotoVaultSt) :
    Except PvError (Nat × Nat) × PhotoVaultSt :=
  match ensureUnlocked st with
  | .error e => (.error e, st)
  | .ok _ =>
    let thumbPaths := st.files.filter (fun p => p.1.startsWith "thumbs/")
    let files := st.files.filter (fun p => ¬ p.1.startsWith "thumbs/")
    let stCleared := { st with files := files }
    let photoIds := ((stCleared.files.filter (fun p => p.1.startsWith "photos/")).map
      (fun p => (p.1.drop 7).dropRight 4))
    let errs := (photoIds.filter
      (fun id => match (pvGetPhoto stCleared id).1 with
                 | .error _ => true
                 | .ok _ => false)).length
    (.ok (thumbPaths.length, errs), { stCleared with metas := [] })

/-- Rust `PhotoVault::unlock` (vault.rs lines 198–251).  `argonSeed` stands for
`derive_seed_from_pin` (Argon2id through the `argon2` crate — an external
call whose output is a pure function of the PIN), and `parseOk` for
`serde_json::from_slice::<VaultConfig>` succeeding on the decrypted
manifest. -/
def pvUnlock (argonSeed : String → Bytes) (parseOk : Bytes → Bool)
    (st : PhotoVaultSt) (pin : String) : Except PvError Unit × PhotoVaultSt :=
  if st.vstate = .lockdown then (.error .TooManyAttempts, st)
  else
    match kmFromMasterSeed (argonSeed pin) with
    | .error e => (.error e, st)
    | .ok keys =>
      match lookupFile st.files "manifest.enc" with
      | none => (.error (.FileNotFound "manifest.enc"), st)
      | some manifestEnc =>
        match edFromBytesAes manifestEnc with
        | .error e => (.error e, st)
        | .ok encrypted =>
          match pvDecryptAesGcm keys.indexKey encrypted with
          | .ok manifestData =>
            if parseOk manifestData then
              (.ok (), { st with vstate := .unlocked, keys := some keys,
                                 indexOpen := true, failedAttempts := 0 })
            else (.error (.SerializationError "invalid manifest"), st)
          | .error _ =>
            let attempts := st.failedAttempts + 1
            if attempts ≥ st.config.maxFailedAttempts then
              (.error .TooManyAttempts,
               { st with failedAttempts := attempts, vstate := .lockdown })
            else
              (.error .InvalidPin, { st with failedAttempts := attempts })

/-- Rust `PhotoVault::lock`. -/
def pvLock (st : PhotoVaultSt) : PhotoVaultSt :=
  { st with keys := none, indexOpen := false, vstate := .locked }

/-! ## Concrete instances used by the scenario claims.
The derived-key and signature constants below are the values of the
corresponding HKDF/HMAC/SHA-256 expressions; each is connected to its
defining expression by a proved (kernel-checked) equation further down. -/

def seed0 : Bytes := List.replicate 32 42

def seedB : Bytes := List.replicate 32 99

/-- Value of `HKDF(seed0, "ALFA:snapshot:sign")`. -/
def signKey0 : Bytes := [34, 53, 222, 18, 177, 176, 36, 125, 22, 183, 192, 241, 187, 4, 227, 231, 51, 145, 103, 33, 18, 40, 155, 12, 95, 153, 42, 185, 31, 180, 120, 200]

/-- Value of `HKDF(seedB, "ALFA:snapshot:sign")`. -/
def signKeyB : Bytes := [130, 12, 42, 180, 209, 16, 228, 211, 21, 167, 82, 232, 190, 225, 16, 47, 242, 21, 21, 20, 87, 224, 156, 89, 37, 197, 2, 94, 183, 17, 172, 213]

def kdfP0 : KdfParamsM := ⟨strBytes "argon2id", 3, 65536, 2⟩

def tsA1 : Bytes := strBytes "2024-01-01T00:00:00+00:00"
def tsA2 : Bytes := strBytes "2024-01-02T00:00:00+00:00"
def tsA3 : Bytes := strBytes "2024-01-03T00:00:00+00:00"
def tsA4 : Bytes := strBytes "2024-01-04T00:00:00+00:00"

def hh1 : Bytes := strBytes "fb0e6038a1088bbe924e37caf29d665f81b65f2e01fcd93df9a8c266426da175"
def hh2 : Bytes := strBytes "3e8bb510d71ff23d20b4f474ebec4296261b948504fbcbc50e034d618455574b"
def hh3 : Bytes := strBytes "452309a687d1cdd5806cb1f0393b69b510aad4c049a895da2a67d8251f378aba"
def hh4 : Bytes := strBytes "8f429ef73d8043e371399f43b89d7d10298db1737fbfbfc14eb21ebf39675844"

/-- The four snapshots the scenario produces, with their computed
signatures and `prev_hash` links. -/
def s1e : PqxSnapshotM :=
  ⟨strBytes "4.0-PQX", 1, tsA1, kdfP0, [], none,
   strBytes "6684106ca69211dd6f72c005abf79906eeea6fb8cbeb9ae09535aa93dee53129", []⟩

def s2e : PqxSnapshotM :=
  ⟨strBytes "4.0-PQX", 2, tsA2, kdfP0, [], some hh1,
   strBytes "b74a68495eda552a5fd881b6178c71ee1a0bbd9c5845d4e2b210ec75b0e741f2", []⟩

def s3e : PqxSnapshotM :=
  ⟨strBytes "4.0-PQX", 3, tsA3, kdfP0, [], some hh2,
   strBytes "6e139a853b20905e426623a6f97b13de1bb5d7b356d8587b1ba20979493e26eb", []⟩

def s4e : PqxSnapshotM :=
  ⟨strBytes "4.0-PQX", 4, tsA4, kdfP0, [], some hh3,
   strBytes "18f2424cb5eb35a2152a890cbe35f3377e85a2a7b1bf08c6cc01dbe78a967ebe", []⟩

/-- The value manually written over snapshot 3's `prev_hash`. -/
def junkPrev : Bytes :=
  strBytes "ffffffffffffffffffffffffffffffffffffffffffffffffffffffffffffffff"

def s3x : PqxSnapshotM := { s3e with prevHash := some junkPrev }

def mgrStep (m : SnapshotMgrM) (t : Bytes) : SnapshotMgrM :=
  (mgrCreateSnapshot m seed0 kdfP0 [] t).1

/-- Create a vault (snapshot 1) and rotate three times (snapshots 2–4). -/
def mgrRun4 : SnapshotMgrM :=
  mgrStep (mgrStep (mgrStep (mgrStep (mgrNew 10) tsA1) tsA2) tsA3) tsA4

/-- Manually overwrite the `prev_hash` field of snapshot 3 on disk. -/
def overwriteOne (s : PqxSnapshotM) : PqxSnapshotM :=
  if s.epoch = 3 then { s with prevHash := some junkPrev } else s

def overwritePrev3 (m : SnapshotMgrM) : SnapshotMgrM :=
  { m with snaps := m.snaps.map overwriteOne }

/-- Two usage maps holding the same (purpose, count) pairs presented in
the two possible `HashMap` iteration orders. -/
def usageA : List (Bytes × Nat) := [(strBytes "ALFA:config", 1), (strBytes "ALFA:mail", 2)]

def usageB : List (Bytes × Nat) := [(strBytes "ALFA:mail", 2), (strBytes "ALFA:config", 1)]

def sUA : PqxSnapshotM := ⟨strBytes "4.0-PQX", 1, tsA1, kdfP0, usageA, none, [], []⟩

def sUB : PqxSnapshotM := ⟨strBytes "4.0-PQX", 1, tsA1, kdfP0, usageB, none, [], []⟩

/-- A stand-in for `derive_seed_from_pin` (Argon2id, an external-crate
call): any fixed pure function of the PIN with a 64-byte output. -/
def argon0 : String → Bytes := fun pin => (strBytes pin ++ List.replicate 64 0).take 64

/-- A stand-in for `serde_json::from_slice::<VaultConfig>` succeeding. -/
def parse0 : Bytes → Bool := fun _ => true

/-- A stored `manifest.enc` (nonce ‖ tag with empty ciphertext body). -/
def manifest0 : Bytes := List.replicate 28 0

/-- The `KeyManager` record `from_master_seed(argon0 "9999")` returns,
written out field by field exactly as `from_master_seed` builds it. -/
def kmReal : KeyManagerM :=
  let master := deriveKeyP (argon0 "9999") [] ctxPhotos
  ⟨master,
   deriveKeyP master (strBytes "photos") ctxPhotos,
   deriveKeyP master (strBytes "thumbs") ctxThumbs,
   deriveKeyP master (strBytes "index") ctxIndex,
   deriveKeyP master (strBytes "hmac") ctxHmac⟩

/-- A freshly opened (locked) vault whose stored manifest is `manifest0`. -/
def vaultL0 : PhotoVaultSt :=
  ⟨vaultConfigDefault, .locked, none, false, [], [("manifest.enc", manifest0)], 0⟩

/-- An unlocked vault holding the keys derived from `argon0 "9999"`. -/
def vaultU0 : PhotoVaultSt :=
  ⟨vaultConfigDefault, .unlocked, some kmReal, true, [], [("manifest.enc", manifest0)], 0⟩

/-! ## Proofs -/

theorem natToLE_length (k n : Nat) : (natToLE k n).length = k := by
  induction k generalizing n with
  | zero => rfl
  | succ j ih => simp [natToLE, ih]

theorem natToBE_length (k n : Nat) : (natToBE k n).length = k := by
  induction k generalizing n with
  | zero => rfl
  | succ j ih => simp [natToBE, ih]

theorem xorBytes_length (a b : Bytes) :
    (xorBytes a b).length = min a.length b.length := by
  simp [xorBytes]

theorem xorBytes_self_cancel (a b : Bytes) (h : b.length = a.length) :
    xorBytes (xorBytes a b) b = a := by
  induction a generalizing b with
  | nil => simp [xorBytes]
  | cons x xs ih =>
    cases b with
    | nil => simp at h
    | cons y ys =>
      simp only [xorBytes, List.zipWith]
      have hy : Nat.xor (Nat.xor x y) y = x := Nat.xor_cancel_right y x
      simpa [hy] using ih ys (by simpa using h)

theorem word32ToBE_allLt (w : Nat) : allLt256 (word32ToBE w) := by
  intro b hb
  simp [word32ToBE] at hb
  rcases hb with h | h | h | h <;> omega

theorem allLt256_append {a b : Bytes} (ha : allLt256 a) (hb : allLt256 b) :
    allLt256 (a ++ b) := by
  intro x hx
  rcases List.mem_append.mp hx with h | h
  · exact ha x h
  · exact hb x h

theorem sha256_allLt (msg : Bytes) : allLt256 (sha256 msg) := by
  intro b hb
  simp only [sha256, shaDigestBytes, List.mem_append] at hb
  rcases hb with ((((((h | h) | h) | h) | h) | h) | h) | h <;>
    exact word32ToBE_allLt _ b h

theorem sha256_length (msg : Bytes) : (sha256 msg).length = 32 := by
  simp [sha256, shaDigestBytes, word32ToBE]

theorem hmacSha256_allLt (key msg : Bytes) : allLt256 (hmacSha256 key msg) :=
  sha256_allLt _

theorem hmacSha256_length (key msg : Bytes) : (hmacSha256 key msg).length = 32 :=
  sha256_length _

theorem hexCharVal_hexDigitChar {n : Nat} (h : n < 16) :
    hexCharVal (hexDigitChar n) = some n := by
  interval_cases n <;> rfl

theorem hexDecode_hexEncode {bs : Bytes} (h : allLt256 bs) :
    hexDecode (hexEncode bs) = some bs := by
  induction bs with
  | nil => rfl
  | cons b rest ih =>
    have hb : b < 256 := h b (List.mem_cons_self b rest)
    have hrest : allLt256 rest := fun x hx => h x (List.mem_cons_of_mem b hx)
    have h1 : b / 16 % 16 < 16 := Nat.mod_lt _ (by omega)
    have h2 : b % 16 < 16 := Nat.mod_lt _ (by omega)
    have hv : b / 16 % 16 * 16 + b % 16 = b := by omega
    simp only [hexEncode, List.foldr_cons, hexDecode]
    rw [hexCharVal_hexDigitChar h1, hexCharVal_hexDigitChar h2]
    rw [show List.foldr (fun b acc => hexDigitChar (b / 16 % 16) :: hexDigitChar (b % 16) :: acc)
        [] rest = hexEncode rest from rfl]
    rw [ih hrest]
    simp [hv]

theorem hexDecodeD_hexEncode {bs : Bytes} (h : allLt256 bs) :
    hexDecodeD (hexEncode bs) = bs := by
  simp [hexDecodeD, hexDecode_hexEncode h]

theorem flatMap_const_length {α : Type} (f : α → Bytes) (c : Nat) (l : List α)
    (h : ∀ a, (f a).length = c) : (l.flatMap f).length = c * l.length := by
  induction l with
  | nil => simp
  | cons x xs ih => simp [List.flatMap_cons, ih, h x, Nat.mul_succ]; omega

theorem aes256Block_length (key block : Bytes) : (aes256Block key block).length = 16 := by
  simp [aes256Block]

theorem gcmKeystream_length (key nonce : Bytes) (n : Nat) :
    (gcmKeystream key nonce n).length = n := by
  unfold gcmKeystream
  rw [List.length_take]
  have h := flatMap_const_length (fun j => aes256Block key (gcmCtrBlock nonce (j + 2))) 16
    (List.range (n / 16 + 1)) (fun a => aes256Block_length _ _)
  rw [h, List.length_range]
  omega

theorem gcmTag_length (key nonce aad ct : Bytes) : (gcmTag key nonce aad ct).length = 16 := by
  simp [gcmTag, xorBytes_length, aes256Block_length, natToBE_length]

theorem padWords_length (ws : List Nat) (n : Nat) : (padWords ws n).length = n := by
  simp [padWords]

theorem chachaQR_length (st : List Nat) (ia ib ic id : Nat) :
    (chachaQR st ia ib ic id).length = st.length := by
  simp [chachaQR]

theorem chachaDoubleRound_length (st : List Nat) :
    (chachaDoubleRound st).length = st.length := by
  simp [chachaDoubleRound, chachaQR_length]

theorem chachaRounds_length (st : List Nat) (n : Nat) :
    (chachaRounds st n).length = st.length := by
  induction n with
  | zero => rfl
  | succ k ih => simp [chachaRounds, chachaDoubleRound_length, ih]

theorem chachaInitSt_length (key : Bytes) (counter : Nat) (nonce : Bytes) :
    (chachaInitSt key counter nonce).length = 16 := by
  simp [chachaInitSt, chachaConsts, padWords_length]

theorem word32ToLE_length (w : Nat) : (word32ToLE w).length = 4 := by
  simp [word32ToLE]

theorem chachaBlock_length (key : Bytes) (counter : Nat) (nonce : Bytes) :
    (chachaBlock key counter nonce).length = 64 := by
  unfold chachaBlock
  rw [flatMap_const_length _ 4 _ word32ToLE_length]
  rw [List.length_zipWith, chachaRounds_length, chachaInitSt_length]
  simp

theorem chachaKeystream_length (key : Bytes) (counterStart : Nat) (nonce : Bytes) (n : Nat) :
    (chachaKeystream key counterStart nonce n).length = n := by
  unfold chachaKeystream
  rw [List.length_take]
  rw [flatMap_const_length _ 64 _ (fun j => chachaBlock_length key (counterStart + j) nonce)]
  rw [List.length_range]
  omega

theorem poly1305_length (key msg : Bytes) : (poly1305 key msg).length = 16 := by
  simp [poly1305, natToLE_length]

theorem chachaPolyTag_length (key nonce aad ct : Bytes) :
    (chachaPolyTag key nonce aad ct).length = 16 := by
  simp [chachaPolyTag, poly1305_length]

theorem gcmOpen_gcmSeal (key nonce aad pt : Bytes) :
    gcmOpen key nonce aad (gcmSeal key nonce aad pt) = some pt := by
  have hks : (gcmKeystream key nonce pt.length).length = pt.length :=
    gcmKeystream_length key nonce pt.length
  have hct : (xorBytes pt (gcmKeystream key nonce pt.length)).length = pt.length := by
    rw [xorBytes_length, hks]; omega
  have htag := gcmTag_length key nonce aad (xorBytes pt (gcmKeystream key nonce pt.length))
  unfold gcmSeal gcmOpen
  rw [if_neg (by simp [hct, htag])]
  have hsub : (xorBytes pt (gcmKeystream key nonce pt.length) ++
      gcmTag key nonce aad (xorBytes pt (gcmKeystream key nonce pt.length))).length - 16 =
      (xorBytes pt (gcmKeystream key nonce pt.length)).length := by
    simp [htag]
  rw [hsub, List.take_left, List.drop_left, if_pos rfl, hct]
  exact congrArg some (xorBytes_self_cancel pt _ hks)

theorem chachaPolyOpen_chachaPolySeal (key nonce aad pt : Bytes) :
    chachaPolyOpen key nonce aad (chachaPolySeal key nonce aad pt) = some pt := by
  have hks : (chachaKeystream key 1 nonce pt.length).length = pt.length :=
    chachaKeystream_length key 1 nonce pt.length
  have hct : (xorBytes pt (chachaKeystream key 1 nonce pt.length)).length = pt.length := by
    rw [xorBytes_length, hks]; omega
  have htag := chachaPolyTag_length key nonce aad (xorBytes pt (chachaKeystream key 1 nonce pt.length))
  unfold chachaPolySeal chachaPolyOpen
  rw [if_neg (by simp [hct, htag])]
  have hsub : (xorBytes pt (chachaKeystream key 1 nonce pt.length) ++
      chachaPolyTag key nonce aad (xorBytes pt (chachaKeystream key 1 nonce pt.length))).length - 16 =
      (xorBytes pt (chachaKeystream key 1 nonce pt.length)).length := by
    simp [htag]
  rw [hsub, List.take_left, List.drop_left, if_pos rfl, hct]
  exact congrArg some (xorBytes_self_cancel pt _ hks)

theorem xchachaOpen_xchachaSeal (key nonce24 aad pt : Bytes) :
    xchachaOpen key nonce24 aad (xchachaSeal key nonce24 aad pt) = some pt :=
  chachaPolyOpen_chachaPolySeal _ _ aad pt

theorem gcmSeal_length (key nonce aad pt : Bytes) :
    (gcmSeal key nonce aad pt).length = pt.length + 16 := by
  simp [gcmSeal, xorBytes_length, gcmKeystream_length, gcmTag_length]

theorem hkdfSha256_length (salt : Option Bytes) (ikm info : Bytes) :
    (hkdfSha256 salt ikm info).length = 32 :=
  sha256_length _

theorem kvDecryptAesGcm_kvEncryptAesGcm (seed kek nonce : Bytes)
    (hs : seed.length = 32) (hn : nonce.length = 12) :
    kvDecryptAesGcm kek nonce (kvEncryptAesGcm seed kek nonce).2 = .ok seed := by
  simp [kvEncryptAesGcm, kvDecryptAesGcm, hn, gcmOpen_gcmSeal, hs]

theorem kvDecryptXchacha_kvEncryptXchacha (seed kek nonce : Bytes)
    (hs : seed.length = 32) (hn : nonce.length = 24) :
    kvDecryptXchacha kek nonce (kvEncryptXchacha seed kek nonce).2 = .ok seed := by
  simp [kvEncryptXchacha, kvDecryptXchacha, hn, xchachaOpen_xchachaSeal, hs]

theorem pvEncryptAesGcm_ok (key nonce pt : Bytes) (hk : key.length = 32) :
    pvEncryptAesGcm key nonce pt = .ok ⟨nonce, gcmSeal key nonce [] pt⟩ := by
  simp [pvEncryptAesGcm, hk]

theorem pvDecryptAesGcm_pvEncryptAesGcm (key nonce pt : Bytes)
    (hk : key.length = 32) (hn : nonce.length = 12) :
    pvDecryptAesGcm key ⟨nonce, gcmSeal key nonce [] pt⟩ = .ok pt := by
  simp [pvDecryptAesGcm, hk, hn, gcmOpen_gcmSeal]

theorem pcDeriveFileKey_length (pc : PhotoCryptoM) (photoId : String) :
    (pcDeriveFileKey pc photoId).length = 32 :=
  sha256_length _

theorem pcMagic_bytes : pcMagic = [65, 76, 70, 65, 80, 72, 79, 84] := by decide

theorem pcEncryptBytes_ok (pc : PhotoCryptoM) (pt : Bytes) (photoId : String)
    (nonce : Bytes) :
    pcEncryptBytes pc pt photoId nonce =
      .ok ((pcMagic ++ [1] ++ nonce ++ gcmSeal (pcDeriveFileKey pc photoId) nonce (strBytes photoId) pt) ++
        pcComputeHmac pc (pcMagic ++ [1] ++ nonce ++ gcmSeal (pcDeriveFileKey pc photoId) nonce (strBytes photoId) pt)) := by
  simp [pcEncryptBytes, pcDeriveFileKey_length]

theorem pcDecryptBytes_pcEncryptBytes (pc : PhotoCryptoM) (pt : Bytes) (photoId : String)
    (nonce : Bytes) (hn : nonce.length = 12) :
    (pcEncryptBytes pc pt photoId nonce).bind (fun data => pcDecryptBytes pc data photoId) =
      .ok pt := by
  rw [pcEncryptBytes_ok]
  set fk := pcDeriveFileKey pc photoId with hfk
  set ct := gcmSeal fk nonce (strBytes photoId) pt with hctdef
  have hct : ct.length = pt.length + 16 := gcmSeal_length _ _ _ _
  set content := pcMagic ++ [1] ++ nonce ++ ct with hcontent
  set hm := pcComputeHmac pc content with hhm
  have hhmlen : hm.length = 32 := sha256_length _
  have hclen : content.length = pt.length + 37 := by
    simp [hcontent, pcMagic_bytes, hn, hct]
    omega
  have hdlen : (content ++ hm).length = pt.length + 69 := by
    simp [hclen, hhmlen]
  simp only [Except.bind]
  unfold pcDecryptBytes
  rw [if_neg (by omega)]
  have hstart : (content ++ hm).length - 32 = content.length := by omega
  have htake8 : (content ++ hm).take 8 = pcMagic := by
    simp only [hcontent, pcMagic_bytes]
    rfl
  rw [if_neg (by rw [htake8]; exact fun h => h rfl)]
  have hget8 : (content ++ hm).getD 8 0 = 1 := by
    simp only [hcontent, pcMagic_bytes]
    rfl
  rw [if_neg (by rw [hget8]; exact fun h => h rfl)]
  rw [hstart]
  simp only [List.take_left, List.drop_left]
  have hver : pcVerifyHmac pc content hm = true := by
    simp [pcVerifyHmac, hhm]
  rw [if_neg (by simp [hver])]
  have hdrop9 : (content ++ hm).drop 9 = nonce ++ (ct ++ hm) := by
    simp only [hcontent, pcMagic_bytes]
    simp [List.append_assoc]
  have hnonce : ((content ++ hm).drop 9).take 12 = nonce := by
    rw [hdrop9, ← hn, List.take_left]
  have hdrop21 : (content ++ hm).drop 21 = ct ++ hm := by
    rw [show (21 : Nat) = 9 + 12 by rfl, ← List.drop_drop, hdrop9]
    rw [← hn, List.drop_left]
  have hctext : ((content ++ hm).drop 21).take (content.length - 21) = ct := by
    rw [hdrop21]
    have : content.length - 21 = ct.length := by omega
    rw [this, List.take_left]
  rw [hnonce, hctext]
  rw [if_neg (by simp [pcDeriveFileKey_length])]
  rw [hctdef, gcmOpen_gcmSeal]

theorem updateProfile_failedAttempts (st : BrainSt) (e : AccessEventM) :
    (updateProfile st e).failedAttempts = st.failedAttempts := by
  simp [updateProfile]

theorem updateProfile_policy (st : BrainSt) (e : AccessEventM) :
    (updateProfile st e).policy = st.policy := by
  simp [updateProfile]

theorem pushEvent_failedAttempts (st : BrainSt) (e : AccessEventM) :
    (pushEvent st e).failedAttempts = st.failedAttempts := rfl

theorem pushEvent_policy (st : BrainSt) (e : AccessEventM) :
    (pushEvent st e).policy = st.policy := rfl

/-- If the event is a failure and the resulting failed-attempt counter
reaches the policy maximum, `record_event` recurses through
`enter_lockdown` into itself forever: no amount of fuel returns. -/
theorem recordEventGo_diverges (fuel : Nat) : ∀ (st : BrainSt) (e : AccessEventM),
    e.success = false →
    (if e.eventType = .unlockEv then st.failedAttempts + 1 else st.failedAttempts) ≥
      st.policy.maxFailedAttempts →
    recordEventGo fuel st e = none := by
  induction fuel with
  | zero => intro st e _ _; rfl
  | succ f ih =>
    intro st e hsucc hge
    unfold recordEventGo
    simp only [hsucc, Bool.false_eq_true, if_false]
    by_cases het : e.eventType = .unlockEv
    · simp only [het, if_true]
      rw [if_pos]
      · apply ih
        · rfl
        · simp only [lockdownEvent, pushEvent_policy, updateProfile_policy,
            pushEvent_failedAttempts, updateProfile_failedAttempts]
          simp only [het] at hge
          simpa using hge
      · simp only [pushEvent_policy, updateProfile_policy,
          pushEvent_failedAttempts, updateProfile_failedAttempts]
        simp only [het] at hge
        exact hge
    · simp only [het, if_false]
      rw [if_pos]
      · apply ih
        · rfl
        · simp only [lockdownEvent, pushEvent_policy, updateProfile_policy,
            pushEvent_failedAttempts, updateProfile_failedAttempts]
          simp only [het] at hge
          simpa using hge
      · simp only [pushEvent_policy, updateProfile_policy,
          pushEvent_failedAttempts, updateProfile_failedAttempts]
        simp only [het] at hge
        exact hge

/-- C1: for every 32-byte key, every plaintext, and each cipher in
{AES-256-GCM, XChaCha20-Poly1305}, opening the result of sealing under the
same key (and the same AAD where AAD is used — `PhotoCrypto` binds the
photo id) returns exactly the original plaintext: `decrypt_seed` after
`encrypt_seed` for both ciphers, the photos-vault `decrypt_aes_gcm` after
`encrypt_aes_gcm`, and `PhotoCrypto::decrypt_bytes` after `encrypt_bytes`. -/
theorem seal_open_roundtrip (seed kek key master hmk pt : Bytes) (photoId : String)
    (n12 n24 : Bytes) (hs : seed.length = 32) (_hkek : kek.length = 32)
    (hkey : key.length = 32) (hn12 : n12.length = 12) (hn24 : n24.length = 24) :
    decryptSeed kek n12 (encryptSeed seed kek n12 .aes256Gcm).2 .aes256Gcm = .ok seed ∧
    decryptSeed kek n24 (encryptSeed seed kek n24 .xchacha20Poly1305).2 .xchacha20Poly1305 =
      .ok seed ∧
    pvEncryptAesGcm key n12 pt = .ok ⟨n12, gcmSeal key n12 [] pt⟩ ∧
    pvDecryptAesGcm key ⟨n12, gcmSeal key n12 [] pt⟩ = .ok pt ∧
    (pcEncryptBytes ⟨master, hmk⟩ pt photoId n12).bind
      (fun data => pcDecryptBytes ⟨master, hmk⟩ data photoId) = .ok pt := by
  refine ⟨?_, ?_, ?_, ?_, ?_⟩
  · simpa [encryptSeed, decryptSeed] using kvDecryptAesGcm_kvEncryptAesGcm seed kek n12 hs hn12
  · simpa [encryptSeed, decryptSeed] using kvDecryptXchacha_kvEncryptXchacha seed kek n24 hs hn24
  · exact pvEncryptAesGcm_ok key n12 pt hkey
  · exact pvDecryptAesGcm_pvEncryptAesGcm key n12 pt hkey hn12
  · exact pcDecryptBytes_pcEncryptBytes ⟨master, hmk⟩ pt photoId n12 hn12

/-- Witness for C1 at concrete inputs. -/
theorem seal_open_roundtrip_witness :
    decryptSeed (List.replicate 32 7) (List.replicate 12 0)
      (encryptSeed (List.replicate 32 42) (List.replicate 32 7) (List.replicate 12 0)
        .aes256Gcm).2 .aes256Gcm = .ok (List.replicate 32 42) ∧
    decryptSeed (List.replicate 32 7) (List.replicate 24 5)
      (encryptSeed (List.replicate 32 42) (List.replicate 32 7) (List.replicate 24 5)
        .xchacha20Poly1305).2 .xchacha20Poly1305 = .ok (List.replicate 32 42) ∧
    pvEncryptAesGcm (List.replicate 32 1) (List.replicate 12 0) [10, 20, 30] =
      .ok ⟨List.replicate 12 0, gcmSeal (List.replicate 32 1) (List.replicate 12 0) [] [10, 20, 30]⟩ ∧
    pvDecryptAesGcm (List.replicate 32 1)
      ⟨List.replicate 12 0, gcmSeal (List.replicate 32 1) (List.replicate 12 0) [] [10, 20, 30]⟩ =
      .ok [10, 20, 30] ∧
    (pcEncryptBytes ⟨List.replicate 32 2, List.replicate 32 3⟩ [10, 20, 30] "IMG_001"
      (List.replicate 12 0)).bind
      (fun data => pcDecryptBytes ⟨List.replicate 32 2, List.replicate 32 3⟩ data "IMG_001") =
      .ok [10, 20, 30] :=
  seal_open_roundtrip (List.replicate 32 42) (List.replicate 32 7) (List.replicate 32 1)
    (List.replicate 32 2) (List.replicate 32 3) [10, 20, 30] "IMG_001"
    (List.replicate 12 0) (List.replicate 24 5)
    (by decide) (by decide) (by decide) (by decide) (by decide)

/-- C3: `rotate_keys` bumps the persisted epoch counter unconditionally
while reading, decrypting, or re-encrypting no blob at all — the epoch is
not incremented "only after every blob has been successfully re-encrypted";
no re-encryption happens, and the files on disk are untouched. -/
theorem rotate_bumps_epoch_without_reencryption (st : ApiStateM) (now : Nat) :
    (apiRotateKeys st now).1 = st.rotation.currentEpoch + 1 ∧
    (apiRotateKeys st now).2.rotation.currentEpoch = st.rotation.currentEpoch + 1 ∧
    (apiRotateKeys st now).2.files = st.files := by
  refine ⟨rfl, rfl, rfl⟩

/-- C7: on the unlock failure that reaches `max_failed_attempts` (the
default policy has `max = 5`; the state below has 4 recorded failures),
`record_event` never returns: `check_and_update_policy` calls
`enter_lockdown`, which calls `record_event` again with a state still at
the maximum, recursing forever (and re-acquiring the non-reentrant events
write lock).  The lockdown state is therefore never reported back. -/
theorem lockdown_entry_diverges (fuel t : Nat) :
    recordEventGo fuel
      { brainNew with failedAttempts := 4 }
      ⟨t, .unlockEv, none, false, 0, strBytes "cli"⟩ = none := by
  apply recordEventGo_diverges
  · rfl
  · simp [brainNew, autoPolicyDefault]

/-- C10: whenever the vault state is not `Unlocked`, every photo operation
(`import_photo`, `get_photo`, `get_thumbnail`, `get_photo_meta`,
`list_photos`, `delete_photo`, `reset`) fails with `VaultLocked` from the
`ensure_unlocked` gate — before any key material is touched — and returns
the vault state and stored data unchanged. -/
theorem locked_vault_rejects_operations (st : PhotoVaultSt) (pt : Bytes)
    (name id : String) (n tn : Bytes) (td : Option Bytes) (ph : Option String)
    (h : st.vstate ≠ .unlocked) :
    pvImportPhoto st pt name id n tn td ph = (.error .VaultLocked, st) ∧
    pvGetPhoto st id = (.error .VaultLocked, st) ∧
    pvGetThumbnail st id = (.error .VaultLocked, st) ∧
    pvGetPhotoMeta st id = (.error .VaultLocked, st) ∧
    pvListPhotos st = (.error .VaultLocked, st) ∧
    pvDeletePhoto st id = (.error .VaultLocked, st) ∧
    pvReset st = (.error .VaultLocked, st) := by
  have he : ensureUnlocked st = .error .VaultLocked := by
    simp [ensureUnlocked, h]
  refine ⟨?_, ?_, ?_, ?_, ?_, ?_, ?_⟩
  · simp [pvImportPhoto, he]
  · simp [pvGetPhoto, he]
  · simp [pvGetThumbnail, he]
  · simp [pvGetPhotoMeta, he]
  · simp [pvListPhotos, he]
  · simp [pvDeletePhoto, he]
  · simp [pvReset, he]

/-- Witness for C10 on a concrete freshly-opened (locked) vault. -/
theorem locked_vault_rejects_operations_witness :
    pvImportPhoto ⟨vaultConfigDefault, .locked, none, false, [], [], 0⟩ [1, 2, 3] "a.jpg"
      "id0" (List.replicate 12 0) (List.replicate 12 0) none none =
      (.error .VaultLocked, ⟨vaultConfigDefault, .locked, none, false, [], [], 0⟩) ∧
    pvGetPhoto ⟨vaultConfigDefault, .locked, none, false, [], [], 0⟩ "id0" =
      (.error .VaultLocked, ⟨vaultConfigDefault, .locked, none, false, [], [], 0⟩) ∧
    pvGetThumbnail ⟨vaultConfigDefault, .locked, none, false, [], [], 0⟩ "id0" =
      (.error .VaultLocked, ⟨vaultConfigDefault, .locked, none, false, [], [], 0⟩) ∧
    pvGetPhotoMeta ⟨vaultConfigDefault, .locked, none, false, [], [], 0⟩ "id0" =
      (.error .VaultLocked, ⟨vaultConfigDefault, .locked, none, false, [], [], 0⟩) ∧
    pvListPhotos ⟨vaultConfigDefault, .locked, none, false, [], [], 0⟩ =
      (.error .VaultLocked, ⟨vaultConfigDefault, .locked, none, false, [], [], 0⟩) ∧
    pvDeletePhoto ⟨vaultConfigDefault, .locked, none, false, [], [], 0⟩ "id0" =
      (.error .VaultLocked, ⟨vaultConfigDefault, .locked, none, false, [], [], 0⟩) ∧
    pvReset ⟨vaultConfigDefault, .locked, none, false, [], [], 0⟩ =
      (.error .VaultLocked, ⟨vaultConfigDefault, .locked, none, false, [], [], 0⟩) :=
  locked_vault_rejects_operations ⟨vaultConfigDefault, .locked, none, false, [], [], 0⟩
    [1, 2, 3] "a.jpg" "id0" (List.replicate 12 0) (List.replicate 12 0) none none
    (by decide)

theorem signKey0_eq : deriveSubkeyFixed32 seed0 purposeSnapshotSign = signKey0 := by decide

theorem signKeyB_eq : deriveSubkeyFixed32 seedB purposeSnapshotSign = signKeyB := by decide

theorem pqxComputeHash_pqxSign (seed : Bytes) (s : PqxSnapshotM) :
    pqxComputeHash (pqxSign seed s) = pqxComputeHash s := rfl

theorem pqxVerify_pqxSign (seed : Bytes) (s : PqxSnapshotM) :
    pqxVerify seed (pqxSign seed s) = true := by
  unfold pqxVerify
  rw [pqxComputeHash_pqxSign]
  rw [show (pqxSign seed s).signature = hexEncode (hmacSha256
      (deriveSubkeyFixed32 seed purposeSnapshotSign) (pqxComputeHash s)) from rfl]
  rw [hexDecodeD_hexEncode (hmacSha256_allLt _ _)]
  exact beq_self_eq_true _

theorem pqxVerify_ignores_unhashed (seed : Bytes) (s : PqxSnapshotM) (p : Nat)
    (md : List (Bytes × Bytes)) :
    pqxVerify seed { pqxSign seed s with
      kdfParams := { (pqxSign seed s).kdfParams with parallelism := p },
      metadata := md } = true := by
  unfold pqxVerify
  rw [show pqxComputeHash { pqxSign seed s with
      kdfParams := { (pqxSign seed s).kdfParams with parallelism := p },
      metadata := md } = pqxComputeHash s from rfl]
  rw [show ({ pqxSign seed s with
      kdfParams := { (pqxSign seed s).kdfParams with parallelism := p },
      metadata := md } : PqxSnapshotM).signature = hexEncode (hmacSha256
      (deriveSubkeyFixed32 seed purposeSnapshotSign) (pqxComputeHash s)) from rfl]
  rw [hexDecodeD_hexEncode (hmacSha256_allLt _ _)]
  exact beq_self_eq_true _

theorem hash1_eq : pqxComputeHash s1e = hh1 := by decide

theorem hash2_eq : pqxComputeHash s2e = hh2 := by decide

theorem hash3_eq : pqxComputeHash s3e = hh3 := by decide

theorem hash4_eq : pqxComputeHash s4e = hh4 := by decide

theorem sign1_eq : pqxSign seed0 (pqxNew 1 kdfP0 [] none tsA1) = s1e := by
  unfold pqxSign
  rw [signKey0_eq, show pqxComputeHash (pqxNew 1 kdfP0 [] none tsA1) = hh1 from hash1_eq]
  decide

theorem sign2_eq : pqxSign seed0 (pqxNew 2 kdfP0 [] (some hh1) tsA2) = s2e := by
  unfold pqxSign
  rw [signKey0_eq, show pqxComputeHash (pqxNew 2 kdfP0 [] (some hh1) tsA2) = hh2 from hash2_eq]
  decide

theorem sign3_eq : pqxSign seed0 (pqxNew 3 kdfP0 [] (some hh2) tsA3) = s3e := by
  unfold pqxSign
  rw [signKey0_eq, show pqxComputeHash (pqxNew 3 kdfP0 [] (some hh2) tsA3) = hh3 from hash3_eq]
  decide

theorem sign4_eq : pqxSign seed0 (pqxNew 4 kdfP0 [] (some hh3) tsA4) = s4e := by
  unfold pqxSign
  rw [signKey0_eq, show pqxComputeHash (pqxNew 4 kdfP0 [] (some hh3) tsA4) = hh4 from hash4_eq]
  decide

theorem verify1_true : pqxVerify seed0 s1e = true := by
  rw [← sign1_eq]; exact pqxVerify_pqxSign seed0 _

theorem verify2_true : pqxVerify seed0 s2e = true := by
  rw [← sign2_eq]; exact pqxVerify_pqxSign seed0 _

theorem verify3_true : pqxVerify seed0 s3e = true := by
  rw [← sign3_eq]; exact pqxVerify_pqxSign seed0 _

theorem verify4_true : pqxVerify seed0 s4e = true := by
  rw [← sign4_eq]; exact pqxVerify_pqxSign seed0 _

theorem verify3x_false : pqxVerify seed0 s3x = false := by
  unfold pqxVerify
  rw [signKey0_eq]
  decide

/-- C2: the canonical snapshot hash feeds the key-usage map to SHA-256 in
the map's (arbitrary) iteration order instead of ascending key-sorted
order: two snapshots whose usage maps hold exactly the same
(purpose, count) pairs produce different canonical hashes when the map
iterates them in different orders. -/
theorem usage_order_changes_hash :
    sUA.keyUsages.Perm sUB.keyUsages ∧ pqxComputeHash sUA ≠ pqxComputeHash sUB := by
  constructor
  · decide
  · decide

theorem verify_epoch_altered : pqxVerify seed0 { s1e with epoch := 2 } = false := by
  unfold pqxVerify
  rw [signKey0_eq]
  decide

theorem verify_wrong_seed : pqxVerify seedB s1e = false := by
  unfold pqxVerify
  rw [signKeyB_eq, hash1_eq]
  decide

/-- C4 (amended): signing a snapshot and verifying it with the same seed
returns true for every snapshot and seed; verification also stays true
after altering `kdf_params.parallelism` or `metadata`, which
`compute_hash` does not hash; altering a hashed field (the epoch) of the
concretely signed snapshot, or verifying it with a different seed,
returns false. -/
theorem snapshot_sign_verify (s : PqxSnapshotM) (seed : Bytes) (p : Nat)
    (md : List (Bytes × Bytes)) :
    pqxVerify seed (pqxSign seed s) = true ∧
    pqxVerify seed { pqxSign seed s with
      kdfParams := { (pqxSign seed s).kdfParams with parallelism := p },
      metadata := md } = true ∧
    pqxSign seed0 (pqxNew 1 kdfP0 [] none tsA1) = s1e ∧
    pqxVerify seed0 { s1e with epoch := 2 } = false ∧
    pqxVerify seedB s1e = false :=
  ⟨pqxVerify_pqxSign seed s, pqxVerify_ignores_unhashed seed s p md, sign1_eq,
   verify_epoch_altered, verify_wrong_seed⟩

/-- C4 counterexample: altering the `parallelism` field of a signed
snapshot leaves verification returning true, because `compute_hash` never
feeds `kdf_params.parallelism` (or `metadata`) into the digest — contrary
to "altering any field of the snapshot returns false". -/
theorem verify_true_after_parallelism_alteration :
    pqxVerify seed0 { s1e with kdfParams := { s1e.kdfParams with parallelism := 999 } } = true := by
  rw [← sign1_eq]
  exact pqxVerify_ignores_unhashed seed0 (pqxNew 1 kdfP0 [] none tsA1) 999 _

theorem step1_eq : mgrStep (mgrNew 10) tsA1 = ⟨10, 1, some hh1, [s1e]⟩ := by
  simp [mgrStep, mgrCreateSnapshot, mgrNew, sign1_eq, hash1_eq]

theorem step2_eq :
    mgrStep (⟨10, 1, some hh1, [s1e]⟩ : SnapshotMgrM) tsA2 = ⟨10, 2, some hh2, [s1e, s2e]⟩ := by
  simp [mgrStep, mgrCreateSnapshot, sign2_eq, hash2_eq]

theorem step3_eq :
    mgrStep (⟨10, 2, some hh2, [s1e, s2e]⟩ : SnapshotMgrM) tsA3 =
      ⟨10, 3, some hh3, [s1e, s2e, s3e]⟩ := by
  simp [mgrStep, mgrCreateSnapshot, sign3_eq, hash3_eq]

theorem step4_eq :
    mgrStep (⟨10, 3, some hh3, [s1e, s2e, s3e]⟩ : SnapshotMgrM) tsA4 =
      ⟨10, 4, some hh4, [s1e, s2e, s3e, s4e]⟩ := by
  simp [mgrStep, mgrCreateSnapshot, sign4_eq, hash4_eq]

theorem run4_eq : mgrRun4 = ⟨10, 4, some hh4, [s1e, s2e, s3e, s4e]⟩ := by
  unfold mgrRun4
  rw [step1_eq, step2_eq, step3_eq, step4_eq]

theorem overwrite_eq :
    overwritePrev3 (⟨10, 4, some hh4, [s1e, s2e, s3e, s4e]⟩ : SnapshotMgrM) =
      ⟨10, 4, some hh4, [s1e, s2e, s3x, s4e]⟩ := by decide

theorem prev2_cmp : (s2e.prevHash == some hh1) = true := by decide

theorem prev3_cmp : (s3e.prevHash == some hh2) = true := by decide

theorem prev4_cmp : (s4e.prevHash == some hh3) = true := by decide

theorem prev4_cmp_broken : (s4e.prevHash == some hh2) = false := by decide

theorem cstep1 : chainStep seed0 (⟨4, 0, [], true⟩, none) s1e = (⟨4, 1, [], true⟩, some hh1) := by
  simp [chainStep, verify1_true, hash1_eq]

theorem cstep2 :
    chainStep seed0 (⟨4, 1, [], true⟩, some hh1) s2e = (⟨4, 2, [], true⟩, some hh2) := by
  simp [chainStep, verify2_true, hash2_eq, prev2_cmp]

theorem cstep3 :
    chainStep seed0 (⟨4, 2, [], true⟩, some hh2) s3e = (⟨4, 3, [], true⟩, some hh3) := by
  simp [chainStep, verify3_true, hash3_eq, prev3_cmp]

theorem cstep4 :
    chainStep seed0 (⟨4, 3, [], true⟩, some hh3) s4e = (⟨4, 4, [], true⟩, some hh4) := by
  simp [chainStep, verify4_true, hash4_eq, prev4_cmp]

theorem chainA_eq :
    mgrVerifyChain seed0 ⟨10, 4, some hh4, [s1e, s2e, s3e, s4e]⟩ = ⟨4, 4, [], true⟩ := by
  rw [show mgrVerifyChain seed0 ⟨10, 4, some hh4, [s1e, s2e, s3e, s4e]⟩ =
        (List.foldl (chainStep seed0) (⟨4, 0, [], true⟩, none) [s1e, s2e, s3e, s4e]).1 from rfl,
      List.foldl_cons, cstep1, List.foldl_cons, cstep2, List.foldl_cons, cstep3,
      List.foldl_cons, cstep4, List.foldl_nil]

theorem s3x_epoch : s3x.epoch = 3 := rfl

theorem cstep3x :
    chainStep seed0 (⟨4, 2, [], true⟩, some hh2) s3x = (⟨4, 2, [3], false⟩, some hh2) := by
  simp [chainStep, verify3x_false, s3x_epoch]

theorem cstep4b :
    chainStep seed0 (⟨4, 2, [3], false⟩, some hh2) s4e = (⟨4, 3, [3], false⟩, some hh4) := by
  simp [chainStep, verify4_true, hash4_eq, prev4_cmp_broken]

theorem chainB_eq :
    mgrVerifyChain seed0 ⟨10, 4, some hh4, [s1e, s2e, s3x, s4e]⟩ = ⟨4, 3, [3], false⟩ := by
  rw [show mgrVerifyChain seed0 ⟨10, 4, some hh4, [s1e, s2e, s3x, s4e]⟩ =
        (List.foldl (chainStep seed0) (⟨4, 0, [], true⟩, none) [s1e, s2e, s3x, s4e]).1 from rfl,
      List.foldl_cons, cstep1, List.foldl_cons, cstep2, List.foldl_cons, cstep3x,
      List.foldl_cons, cstep4b, List.foldl_nil]

/-- C5 (amended): creating a vault and rotating three times yields
`verify_chain` = {total 4, valid 4, no invalid epochs, chain intact};
after manually overwriting the `prev_hash` of snapshot 3 the canonical
hash of that snapshot changes, so its own HMAC signature no longer
verifies: re-verification reports `chain_intact = false` with `valid = 3`
and epoch 3 listed invalid (not `valid = 4`). -/
theorem verify_chain_scenario :
    mgrVerifyChain seed0 mgrRun4 = ⟨4, 4, [], true⟩ ∧
    mgrVerifyChain seed0 (overwritePrev3 mgrRun4) = ⟨4, 3, [3], false⟩ := by
  constructor
  · rw [run4_eq]; exact chainA_eq
  · rw [run4_eq, overwrite_eq]; exact chainB_eq

/-- C5 counterexample: after overwriting `prev_hash` of snapshot 3,
re-verification reports `valid = 3`, not the claimed `valid = 4` — the
altered snapshot's signature check fails because `prev_hash` feeds the
canonical hash the signature is computed over. -/
theorem tampered_prev_hash_fails_signature :
    (mgrVerifyChain seed0 (overwritePrev3 mgrRun4)).valid = 3 := by
  rw [run4_eq, overwrite_eq, chainB_eq]

theorem km9_ok : kmFromMasterSeed (argon0 "9999") = .ok kmReal := by
  unfold kmFromMasterSeed kmReal
  rw [if_neg (by decide)]

theorem manifest0_dec_fails :
    pvDecryptAesGcm kmReal.indexKey ⟨manifest0.take 12, manifest0.drop 12⟩ =
      .error (.DecryptionFailed "Authentication failed") := rfl

theorem lookup_manifest_vaultL0 : lookupFile vaultL0.files "manifest.enc" = some manifest0 := by
  decide

theorem edFromBytesAes_manifest0 :
    edFromBytesAes manifest0 = .ok ⟨manifest0.take 12, manifest0.drop 12⟩ := rfl

theorem unlock_wrong_pin_vaultL0 :
    pvUnlock argon0 parse0 vaultL0 "9999" =
      (.error .InvalidPin, { vaultL0 with failedAttempts := 1 }) := by
  simp only [pvUnlock, km9_ok, lookup_manifest_vaultL0, edFromBytesAes_manifest0,
    manifest0_dec_fails]
  rfl

/-- C6 (amended): the keyvault AEAD `decrypt_aes_gcm` maps every
authentication failure (wrong key or tampered ciphertext) to `AuthFailed`;
but `PhotoVault::unlock` with a wrong password returns `InvalidPin` when
the incremented failure count is still below `max_failed_attempts`
(default 5), returns `TooManyAttempts` — the lockdown kind — on the
attempt that reaches the maximum, and returns `TooManyAttempts` on every
attempt while in lockdown. -/
theorem unlock_and_open_error_kinds
    (argonSeed : String → Bytes) (parse : Bytes → Bool) (st st2 : PhotoVaultSt)
    (pin : String) (kek nonce ct me : Bytes) (km : KeyManagerM) (ed : EncryptedData)
    (e : PvError)
    (hn : nonce.length = 12) (hopen : gcmOpen kek nonce [] ct = none)
    (hld : st.vstate ≠ .lockdown) (hkm : kmFromMasterSeed (argonSeed pin) = .ok km)
    (hlk : lookupFile st.files "manifest.enc" = some me)
    (hed : edFromBytesAes me = .ok ed)
    (hdec : pvDecryptAesGcm km.indexKey ed = .error e)
    (hld2 : st2.vstate = .lockdown) :
    kvDecryptAesGcm kek nonce ct = .error .AuthFailed ∧
    (st.failedAttempts + 1 ≥ st.config.maxFailedAttempts →
      pvUnlock argonSeed parse st pin = (.error .TooManyAttempts,
        { st with failedAttempts := st.failedAttempts + 1, vstate := .lockdown })) ∧
    (st.failedAttempts + 1 < st.config.maxFailedAttempts →
      pvUnlock argonSeed parse st pin = (.error .InvalidPin,
        { st with failedAttempts := st.failedAttempts + 1 })) ∧
    pvUnlock argonSeed parse st2 pin = (.error .TooManyAttempts, st2) := by
  refine ⟨?_, ?_, ?_, ?_⟩
  · simp [kvDecryptAesGcm, hn, hopen]
  · intro hge
    simp only [pvUnlock, if_neg hld, hkm, hlk, hed, hdec]
    rw [if_pos hge]
  · intro hlt
    simp only [pvUnlock, if_neg hld, hkm, hlk, hed, hdec]
    rw [if_neg (by omega)]
  · simp [pvUnlock, hld2]

/-- Witness for C6 at concrete inputs: zero ciphertext under key 1…1
fails AEAD opening, and the `vaultL0` vault rejects PIN "9999". -/
theorem unlock_and_open_error_kinds_witness :
    kvDecryptAesGcm (List.replicate 32 1) (List.replicate 12 0) (List.replicate 16 0) =
      .error .AuthFailed ∧
    (vaultL0.failedAttempts + 1 ≥ vaultL0.config.maxFailedAttempts →
      pvUnlock argon0 parse0 vaultL0 "9999" = (.error .TooManyAttempts,
        { vaultL0 with failedAttempts := vaultL0.failedAttempts + 1, vstate := .lockdown })) ∧
    (vaultL0.failedAttempts + 1 < vaultL0.config.maxFailedAttempts →
      pvUnlock argon0 parse0 vaultL0 "9999" = (.error .InvalidPin,
        { vaultL0 with failedAttempts := vaultL0.failedAttempts + 1 })) ∧
    pvUnlock argon0 parse0 { vaultL0 with vstate := .lockdown } "9999" =
      (.error .TooManyAttempts, { vaultL0 with vstate := .lockdown }) :=
  unlock_and_open_error_kinds argon0 parse0 vaultL0 { vaultL0 with vstate := .lockdown }
    "9999" (List.replicate 32 1) (List.replicate 12 0) (List.replicate 16 0) manifest0
    kmReal ⟨manifest0.take 12, manifest0.drop 12⟩ (.DecryptionFailed "Authentication failed")
    (by decide) (by decide) (by decide) km9_ok lookup_manifest_vaultL0
    edFromBytesAes_manifest0 manifest0_dec_fails (by decide)

/-- C6 counterexample: a wrong-password unlock returns `InvalidPin`,
while the AEAD open on the same manifest returns the decryption-failure
kind — the two error kinds distinguish "wrong password" from "tampered /
undecryptable ciphertext", and neither is an `AuthFailed` kind of the
photos-vault error enum (which has no such variant). -/
theorem wrong_pin_error_kind_distinguishes :
    (pvUnlock argon0 parse0 vaultL0 "9999").1 = .error .InvalidPin ∧
    pvDecryptAesGcm kmReal.indexKey ⟨manifest0.take 12, manifest0.drop 12⟩ =
      .error (.DecryptionFailed "Authentication failed") ∧
    (PvError.InvalidPin ≠ PvError.DecryptionFailed "Authentication failed") := by
  refine ⟨?_, manifest0_dec_fails, fun h => PvError.noConfusion h⟩
  rw [unlock_wrong_pin_vaultL0]

theorem pc_spec_mismatch_concrete :
    pcDeriveFileKey ⟨List.replicate 32 1, List.replicate 32 1⟩ "A" ≠
      specDeriveFile (List.replicate 32 1) "A" := by decide

/-- C8 (amended): `KeyManager::derive_file_key(file_id)` is exactly
HKDF-SHA256 with the photos purpose key as IKM, the file-id bytes as salt
and info `"ALFA:FILE:v1"` (the spec formula), and derivation is a pure
function of its inputs; but `PhotoCrypto::derive_file_key(photo_id)` is
instead HKDF-SHA256 with its master key as IKM, no salt, and info
`"ALFA:PHOTO:FILE:<photo_id>"`, which differs from the spec formula. -/
theorem file_key_derivation_formulas (km : KeyManagerM) (pc : PhotoCryptoM) (fid : String) :
    kmDeriveFileKey km fid = specDeriveFile km.photosKey fid ∧
    pcDeriveFileKey pc fid =
      hkdfSha256 none pc.masterKey (strBytes ("ALFA:PHOTO:FILE:" ++ fid)) ∧
    pcDeriveFileKey ⟨List.replicate 32 1, List.replicate 32 1⟩ "A" ≠
      specDeriveFile (List.replicate 32 1) "A" :=
  ⟨rfl, rfl, pc_spec_mismatch_concrete⟩

/-- C8 counterexample: at the concrete master key 0x01…01 and file id
"A", `PhotoCrypto::derive_file_key` does not equal
`HKDF(key, salt = file_id, info = "ALFA:FILE:v1")` — it uses no salt and
a different info string. -/
theorem photo_crypto_file_key_mismatch :
    pcDeriveFileKey ⟨List.replicate 32 1, List.replicate 32 1⟩ "A" ≠
      specDeriveFile (List.replicate 32 1) "A" :=
  pc_spec_mismatch_concrete

theorem kmDeriveFileKey_length (km : KeyManagerM) (fid : String) :
    (kmDeriveFileKey km fid).length = 32 :=
  sha256_length _

theorem lookupFile_storeFile (fs : List (String × Bytes)) (p : String) (d : Bytes) :
    lookupFile (storeFile fs p d) p = some d := by
  unfold lookupFile storeFile
  rw [List.find?_append]
  have h1 : (fs.filter (fun q => q.1 ≠ p)).find? (fun q => q.1 = p) = none := by
    rw [List.find?_eq_none]
    intro x hx
    have h2 := (List.mem_filter.mp hx).2
    simp only [ne_eq, decide_not] at h2
    simpa using h2
  rw [h1]
  simp

theorem import_writes_nonce_ct (st : PhotoVaultSt) (km : KeyManagerM) (pt : Bytes)
    (name id : String) (nonce : Bytes)
    (hu : st.vstate = .unlocked) (hk : st.keys = some km) :
    (pvImportPhoto st pt name id nonce nonce none none).1 = .ok id ∧
    lookupFile (pvImportPhoto st pt name id nonce nonce none none).2.files
      ("photos/" ++ id ++ ".enc") =
      some (nonce ++ gcmSeal (kmDeriveFileKey km id) nonce [] pt) := by
  have he : ensureUnlocked st = .ok () := by simp [ensureUnlocked, hu]
  have henc := pvEncryptAesGcm_ok (kmDeriveFileKey km id) nonce pt
    (kmDeriveFileKey_length km id)
  cases hio : st.indexOpen <;>
    simp [pvImportPhoto, he, hk, henc, hio, EncryptedData.toBytes, lookupFile_storeFile]

/-- C9 (amended): `PhotoCrypto::encrypt_bytes` output has, from offset 0,
the layout magic `"ALFAPHOT"` (8 bytes), version byte 0x01, nonce
(12 bytes), AES-GCM ciphertext-with-tag, then an HMAC-SHA256 over all
preceding bytes, totalling plaintext + 69 bytes, and
`PhotoCrypto::decrypt_bytes` rejects any input shorter than 69 bytes; but
the photo blobs `PhotoVault::import_photo` actually writes to disk are
`nonce ‖ ciphertext-with-tag` with no magic, version, or trailing HMAC
(the HMAC is stored in the index record instead). -/
theorem blob_envelope_layout (pc : PhotoCryptoM) (pt data : Bytes) (photoId : String)
    (nonce : Bytes) (st : PhotoVaultSt) (km : KeyManagerM) (pt2 : Bytes) (name id : String)
    (n2 : Bytes)
    (hn : nonce.length = 12) (hd : data.length < 69)
    (hu : st.vstate = .unlocked) (hk : st.keys = some km) :
    (∃ body : Bytes, pcEncryptBytes pc pt photoId nonce = .ok body ∧
      body.take 8 = pcMagic ∧ body.getD 8 0 = 1 ∧ (body.drop 9).take 12 = nonce ∧
      body.length = pt.length + 69 ∧
      body.drop (body.length - 32) = pcComputeHmac pc (body.take (body.length - 32))) ∧
    pcDecryptBytes pc data photoId = .error (.Crypto "File too small") ∧
    lookupFile (pvImportPhoto st pt2 name id n2 n2 none none).2.files
      ("photos/" ++ id ++ ".enc") =
      some (n2 ++ gcmSeal (kmDeriveFileKey km id) n2 [] pt2) := by
  refine ⟨?_, ?_, (import_writes_nonce_ct st km pt2 name id n2 hu hk).2⟩
  · set ct := gcmSeal (pcDeriveFileKey pc photoId) nonce (strBytes photoId) pt with hctdef
    have hct : ct.length = pt.length + 16 := gcmSeal_length _ _ _ _
    set content := pcMagic ++ [1] ++ nonce ++ ct with hcontent
    set hm := pcComputeHmac pc content with hhm
    have hhmlen : hm.length = 32 := sha256_length _
    have hclen : content.length = pt.length + 37 := by
      simp [hcontent, pcMagic_bytes, hn, hct]
      omega
    refine ⟨content ++ hm, pcEncryptBytes_ok pc pt photoId nonce, ?_, ?_, ?_, ?_, ?_⟩
    · simp only [hcontent, pcMagic_bytes]
      rfl
    · simp only [hcontent, pcMagic_bytes]
      rfl
    · have hdrop9 : (content ++ hm).drop 9 = nonce ++ (ct ++ hm) := by
        simp only [hcontent, pcMagic_bytes]
        simp [List.append_assoc]
      rw [hdrop9, ← hn, List.take_left]
    · simp [hclen, hhmlen]
    · have hstart : (content ++ hm).length - 32 = content.length := by
        simp [hclen, hhmlen]
      rw [hstart, List.take_left, List.drop_left]
  · unfold pcDecryptBytes
    rw [if_pos hd]

/-- Witness for C9 at concrete inputs. -/
theorem blob_envelope_layout_witness :
    (∃ body : Bytes, pcEncryptBytes ⟨List.replicate 32 2, List.replicate 32 3⟩ [1, 2, 3]
        "IMG_001" (List.replicate 12 0) = .ok body ∧
      body.take 8 = pcMagic ∧ body.getD 8 0 = 1 ∧
      (body.drop 9).take 12 = List.replicate 12 0 ∧
      body.length = ([1, 2, 3] : Bytes).length + 69 ∧
      body.drop (body.length - 32) =
        pcComputeHmac ⟨List.replicate 32 2, List.replicate 32 3⟩ (body.take (body.length - 32))) ∧
    pcDecryptBytes ⟨List.replicate 32 2, List.replicate 32 3⟩ [] "IMG_001" =
      .error (.Crypto "File too small") ∧
    lookupFile (pvImportPhoto vaultU0 [9] "a.jpg" "id0" (List.replicate 12 0)
        (List.replicate 12 0) none none).2.files ("photos/" ++ "id0" ++ ".enc") =
      some (List.replicate 12 0 ++
        gcmSeal (kmDeriveFileKey kmReal "id0") (List.replicate 12 0) [] [9]) :=
  blob_envelope_layout ⟨List.replicate 32 2, List.replicate 32 3⟩ [1, 2, 3] [] "IMG_001"
    (List.replicate 12 0) vaultU0 kmReal [9] "a.jpg" "id0" (List.replicate 12 0)
    (by decide) (by decide) rfl rfl

/-- C9 counterexample: the blob that `import_photo` writes for a concrete
photo begins with the random nonce (here 12 zero bytes), not with the
magic `"ALFAPHOT"`: the on-disk photo blobs do not carry the claimed
envelope. -/
theorem import_blob_not_enveloped :
    ∃ d : Bytes,
      lookupFile (pvImportPhoto vaultU0 [1, 2, 3] "a.jpg" "id0" (List.replicate 12 0)
        (List.replicate 12 0) none none).2.files ("photos/" ++ "id0" ++ ".enc") = some d ∧
      d.take 8 = List.replicate 8 0 ∧ d.take 8 ≠ pcMagic := by
  refine ⟨List.replicate 12 0 ++
    gcmSeal (kmDeriveFileKey kmReal "id0") (List.replicate 12 0) [] [1, 2, 3], ?_, ?_, ?_⟩
  · exact (import_writes_nonce_ct vaultU0 kmReal [1, 2, 3] "a.jpg" "id0" (List.replicate 12 0)
      rfl rfl).2
  · rw [List.take_append_of_le_length (by simp)]
    simp [List.take_replicate]
  · rw [List.take_append_of_le_length (by simp)]
    simp only [List.take_replicate]
    decide

end Alfa
